import Mathlib

/-!
Verification of the adaptive spherical-mesh refinement engine in
`generate_adaptive_mesh.py` (class `AdaptiveMesh`).

Modelling conventions:
* Python floats are modelled by `ℚ` (idealised exact arithmetic).
* The numerical library primitives `np.sqrt`, `np.arccos` and the HEALPix
  field sampler (`sample_elevation`, an external collaborator per the spec)
  are uninterpreted parameters collected in an `Env`; the algorithm only
  ever pipes their outputs around, so every structural statement holds for
  all interpretations, and concrete counterexamples instantiate them with
  explicit computable functions.
* Python `dict`s are modelled by association lists; the midpoint dictionary
  `self.edges` is only ever read through key lookup (never iterated), so
  insertion position is unobservable and we cons new entries at the front;
  `tri_dict` is iterated (`tri_dict.values()`), so we keep Python's
  insertion order exactly (append on insert, in-place delete).
* Python `heapq` is standard-library code, not part of this repository; per
  spec §9 the queue is a max-priority queue over triangles ordered by
  `Triangle.__lt__` (higher `error` first).  `heappush`/`heappop` below are
  modelled from the spec accordingly.
-/

set_option maxRecDepth 4000000

namespace AdaptiveSphere

/-- A 3-vector of rational coordinates, the model of a numpy 3-vector. -/
structure Vec3 where
  x : ℚ
  y : ℚ
  z : ℚ
deriving DecidableEq, Repr

/-- Componentwise sum, the model of numpy vector addition. -/
def Vec3.add (a b : Vec3) : Vec3 := ⟨a.x + b.x, a.y + b.y, a.z + b.z⟩

/-- Componentwise difference, the model of numpy vector subtraction. -/
def Vec3.sub (a b : Vec3) : Vec3 := ⟨a.x - b.x, a.y - b.y, a.z - b.z⟩

/-- Scalar multiple of a vector (used for `/ 2`, `/ 3`, `/ norm`). -/
def Vec3.smul (c : ℚ) (a : Vec3) : Vec3 := ⟨c * a.x, c * a.y, c * a.z⟩

/-- Dot product `np.dot`. -/
def Vec3.dot (a b : Vec3) : ℚ := a.x * b.x + a.y * b.y + a.z * b.z

/-- Squared Euclidean norm; `np.linalg.norm v = env.sqrt v.normSq`. -/
def Vec3.normSq (a : Vec3) : ℚ := a.x * a.x + a.y * a.y + a.z * a.z

/-- The external numerical collaborators of the algorithm: the scalar-field
sampler (spec §6: `sample(direction) -> float`, here the whole of
`sample_elevation` including the HEALPix lookup), and the float functions
`np.sqrt` and `np.arccos`.  They are uninterpreted: the refinement engine
treats their outputs as opaque scalars. -/
structure Env where
  sample : Vec3 → ℚ
  sqrt : ℚ → ℚ
  arccos : ℚ → ℚ

/-- `np.clip x lo hi` for scalars. -/
def clip (v lo hi : ℚ) : ℚ := min (max v lo) hi

/-- The `Triangle` dataclass: three vertex indices, an error value, and a
unique id.  (The Python default `id=-1` is never used: every construction
site passes an explicit id, so we use `ℕ`.) -/
structure Triangle where
  v0 : ℕ
  v1 : ℕ
  v2 : ℕ
  error : ℚ := 0
  id : ℕ := 0
deriving DecidableEq, Repr

/-- `Triangle.__lt__`: `self.error > other.error`, making `heapq`'s
min-queue a max-queue on `error`. -/
def Triangle.lt (a b : Triangle) : Prop := a.error > b.error

instance (a b : Triangle) : Decidable (Triangle.lt a b) := by
  unfold Triangle.lt
  infer_instance

/-- Canonical undirected edge key: `tuple(sorted([a, b]))`. -/
def edgeKey (a b : ℕ) : ℕ × ℕ := (min a b, max a b)

/-- `Triangle.edges`: the three canonical edges in the fixed order
(01, 12, 20). -/
def Triangle.edges (t : Triangle) : List (ℕ × ℕ) :=
  [edgeKey t.v0 t.v1, edgeKey t.v1 t.v2, edgeKey t.v2 t.v0]

/-- Association-list lookup, the model of Python `d[k]` / `k in d`. -/
def dlookup {β : Type} (k : ℕ × ℕ) : List ((ℕ × ℕ) × β) → Option β
  | [] => none
  | (k0, v) :: rest => if k0 = k then some v else dlookup k rest

/-- Association-list lookup with `ℕ` keys (for `tri_dict`). -/
def tlookup {β : Type} (k : ℕ) : List (ℕ × β) → Option β
  | [] => none
  | (k0, v) :: rest => if k0 = k then some v else tlookup k rest

/-- Python dict assignment `d[k] = v` preserving insertion order: replace in
place if the key is present, else append at the end. -/
def tinsert {β : Type} (k : ℕ) (v : β) : List (ℕ × β) → List (ℕ × β)
  | [] => [(k, v)]
  | (k0, v0) :: rest =>
      if k0 = k then (k, v) :: rest else (k0, v0) :: tinsert k v rest

/-- Python `del d[k]`: remove the (unique) entry with key `k`. -/
def terase {β : Type} (k : ℕ) : List (ℕ × β) → List (ℕ × β)
  | [] => []
  | (k0, v0) :: rest =>
      if k0 = k then rest else (k0, v0) :: terase k rest

/-- Membership insert for the model of a Python `set` of triangle ids. -/
def setInsert (s : List ℕ) (x : ℕ) : List ℕ :=
  if x ∈ s then s else s ++ [x]

/-- `set.discard`: drop an element if present. -/
def setDiscard (s : List ℕ) (x : ℕ) : List ℕ :=
  s.filter (fun y => y ≠ x)

/-- Update-or-create for `edge_to_triangles`: Python's
`if edge not in m: m[edge] = set()` followed by an operation on `m[edge]`. -/
def etUpdate (e : ℕ × ℕ) (f : List ℕ → List ℕ) :
    List ((ℕ × ℕ) × List ℕ) → List ((ℕ × ℕ) × List ℕ)
  | [] => [(e, f [])]
  | (k0, v0) :: rest =>
      if k0 = e then (k0, f v0) :: rest else (k0, v0) :: etUpdate e f rest

/-- The mutable state owned by an `AdaptiveMesh` instance.  `samples` is a
ghost counter of sampler invocations (each `add_vertex` performs exactly
one), used to state "no sampler call" claims. -/
structure MeshState where
  vertices : List Vec3
  elevations : List ℚ
  triangles : List Triangle
  edges : List ((ℕ × ℕ) × ℕ)
  edgeToTriangles : List ((ℕ × ℕ) × List ℕ)
  triangleIdCounter : ℕ
  samples : ℕ
deriving Repr

/-- The freshly-constructed `AdaptiveMesh.__init__` state. -/
def emptyMesh : MeshState :=
  { vertices := [], elevations := [], triangles := [], edges := [],
    edgeToTriangles := [], triangleIdCounter := 0, samples := 0 }

/-- `add_vertex`: normalise, append the vertex, sample the field there and
append the elevation; return the new index. -/
def add_vertex (env : Env) (ms : MeshState) (x y z : ℚ) : ℕ × MeshState :=
  let norm := env.sqrt (x * x + y * y + z * z)
  let x := x / norm
  let y := y / norm
  let z := z / norm
  let idx := ms.vertices.length
  (idx,
    { ms with
      vertices := ms.vertices ++ [⟨x, y, z⟩],
      elevations := ms.elevations ++ [env.sample ⟨x, y, z⟩],
      samples := ms.samples + 1 })

/-- `get_midpoint`: return the cached midpoint of the canonical edge if
present; otherwise create the geometric midpoint vertex, record it in the
edge cache, and return the new index. -/
def get_midpoint (env : Env) (ms : MeshState) (a b : ℕ) : ℕ × MeshState :=
  let edge := edgeKey a b
  match dlookup edge ms.edges with
  | some m => (m, ms)
  | none =>
      let va := ms.vertices.getD a ⟨0, 0, 0⟩
      let vb := ms.vertices.getD b ⟨0, 0, 0⟩
      let r := add_vertex env ms ((va.x + vb.x) / 2) ((va.y + vb.y) / 2)
        ((va.z + vb.z) / 2)
      (r.1, { r.2 with edges := (edge, r.1) :: r.2.edges })

/-- The four test points of `compute_triangle_error`: centroid and the three
edge midpoints (computed geometrically, before projection to the sphere). -/
def tri_test_points (v0 v1 v2 : Vec3) : List Vec3 :=
  [Vec3.smul (1/3) (Vec3.add v0 (Vec3.add v1 v2)),
   Vec3.smul (1/2) (Vec3.add v0 v1),
   Vec3.smul (1/2) (Vec3.add v1 v2),
   Vec3.smul (1/2) (Vec3.add v2 v0)]

/-- The small constant `1e-10` of the inverse-distance weights. -/
def idwEps : ℚ := 1 / 10000000000

/-- The body of `compute_triangle_error`'s loop for one test point: project
to the sphere, sample, interpolate from the corner elevations by inverse
distance weighting (guarded by `total_dist > 0`), and take the absolute
difference. -/
def code_point_error (env : Env) (v0 v1 v2 : Vec3) (e0 e1 e2 : ℚ)
    (point : Vec3) : ℚ :=
  let p := Vec3.smul (1 / env.sqrt point.normSq) point
  let actual := env.sample p
  let dist0 := env.sqrt (p.sub v0).normSq
  let dist1 := env.sqrt (p.sub v1).normSq
  let dist2 := env.sqrt (p.sub v2).normSq
  let total_dist := dist0 + dist1 + dist2
  let interpolated :=
    if 0 < total_dist then
      let w0 := 1 / (dist0 + idwEps)
      let w1 := 1 / (dist1 + idwEps)
      let w2 := 1 / (dist2 + idwEps)
      let total_w := w0 + w1 + w2
      (w0 / total_w) * e0 + (w1 / total_w) * e1 + (w2 / total_w) * e2
    else e0
  |actual - interpolated|

/-- The total corner distance of a projected test point, i.e. the value the
`total_dist > 0` guard of `compute_triangle_error` tests. -/
def tp_total_dist (env : Env) (v0 v1 v2 : Vec3) (point : Vec3) : ℚ :=
  let p := Vec3.smul (1 / env.sqrt point.normSq) point
  env.sqrt (p.sub v0).normSq + env.sqrt (p.sub v1).normSq +
    env.sqrt (p.sub v2).normSq

/-- `compute_triangle_error`: the maximum (starting from `0.0`) of the
pointwise errors over the four test points. -/
def compute_triangle_error (env : Env) (ms : MeshState) (tri : Triangle) :
    ℚ :=
  let v0 := ms.vertices.getD tri.v0 ⟨0, 0, 0⟩
  let v1 := ms.vertices.getD tri.v1 ⟨0, 0, 0⟩
  let v2 := ms.vertices.getD tri.v2 ⟨0, 0, 0⟩
  let e0 := ms.elevations.getD tri.v0 0
  let e1 := ms.elevations.getD tri.v1 0
  let e2 := ms.elevations.getD tri.v2 0
  (tri_test_points v0 v1 v2).foldl
    (fun maxError point =>
      max maxError (code_point_error env v0 v1 v2 e0 e1 e2 point)) 0

/-- `subdivide_triangle_conforming`: the conforming 1-to-2 / 1-to-3 / 1-to-4
subdivision, selected by how many of the triangle's edges already carry a
cached midpoint.  Returns the replacement triangles, their count (`num_new`)
and the updated mesh state; `triangle_id_counter` itself is advanced by the
caller (`generate`). -/
def subdivide_triangle_conforming (env : Env) (ms : MeshState)
    (tri : Triangle) : List Triangle × ℕ × MeshState :=
  let e01 := edgeKey tri.v0 tri.v1
  let e12 := edgeKey tri.v1 tri.v2
  let e20 := edgeKey tri.v2 tri.v0
  let hasM01 := (dlookup e01 ms.edges).isSome
  let hasM12 := (dlookup e12 ms.edges).isSome
  let hasM20 := (dlookup e20 ms.edges).isSome
  let subdividedCount := (if hasM01 then 1 else 0) + (if hasM12 then 1 else 0)
    + (if hasM20 then 1 else 0)
  let cnt := ms.triangleIdCounter
  if subdividedCount = 0 then
    let r01 := get_midpoint env ms tri.v0 tri.v1
    let r12 := get_midpoint env r01.2 tri.v1 tri.v2
    let r20 := get_midpoint env r12.2 tri.v2 tri.v0
    ([{ v0 := tri.v0, v1 := r01.1, v2 := r20.1, id := cnt },
      { v0 := tri.v1, v1 := r12.1, v2 := r01.1, id := cnt + 1 },
      { v0 := tri.v2, v1 := r20.1, v2 := r12.1, id := cnt + 2 },
      { v0 := r01.1, v1 := r12.1, v2 := r20.1, id := cnt + 3 }], 4, r20.2)
  else if subdividedCount = 1 then
    if hasM01 then
      let m01 := (dlookup e01 ms.edges).getD 0
      ([{ v0 := tri.v0, v1 := m01, v2 := tri.v2, id := cnt },
        { v0 := m01, v1 := tri.v1, v2 := tri.v2, id := cnt + 1 }], 2, ms)
    else if hasM12 then
      let m12 := (dlookup e12 ms.edges).getD 0
      ([{ v0 := tri.v1, v1 := m12, v2 := tri.v0, id := cnt },
        { v0 := m12, v1 := tri.v2, v2 := tri.v0, id := cnt + 1 }], 2, ms)
    else
      let m20 := (dlookup e20 ms.edges).getD 0
      ([{ v0 := tri.v2, v1 := m20, v2 := tri.v1, id := cnt },
        { v0 := m20, v1 := tri.v0, v2 := tri.v1, id := cnt + 1 }], 2, ms)
  else if subdividedCount = 2 then
    if ¬hasM01 then
      let m12 := (dlookup e12 ms.edges).getD 0
      let m20 := (dlookup e20 ms.edges).getD 0
      ([{ v0 := tri.v0, v1 := tri.v1, v2 := m20, id := cnt },
        { v0 := tri.v1, v1 := m12, v2 := m20, id := cnt + 1 },
        { v0 := m20, v1 := m12, v2 := tri.v2, id := cnt + 2 }], 3, ms)
    else if ¬hasM12 then
      let m01 := (dlookup e01 ms.edges).getD 0
      let m20 := (dlookup e20 ms.edges).getD 0
      ([{ v0 := tri.v1, v1 := tri.v2, v2 := m01, id := cnt },
        { v0 := tri.v2, v1 := m20, v2 := m01, id := cnt + 1 },
        { v0 := m01, v1 := m20, v2 := tri.v0, id := cnt + 2 }], 3, ms)
    else
      let m01 := (dlookup e01 ms.edges).getD 0
      let m12 := (dlookup e12 ms.edges).getD 0
      ([{ v0 := tri.v2, v1 := tri.v0, v2 := m12, id := cnt },
        { v0 := tri.v0, v1 := m01, v2 := m12, id := cnt + 1 },
        { v0 := m12, v1 := m01, v2 := tri.v1, id := cnt + 2 }], 3, ms)
  else
    let m01 := (dlookup e01 ms.edges).getD 0
    let m12 := (dlookup e12 ms.edges).getD 0
    let m20 := (dlookup e20 ms.edges).getD 0
    ([{ v0 := tri.v0, v1 := m01, v2 := m20, id := cnt },
      { v0 := tri.v1, v1 := m12, v2 := m01, id := cnt + 1 },
      { v0 := tri.v2, v1 := m20, v2 := m12, id := cnt + 2 },
      { v0 := m01, v1 := m12, v2 := m20, id := cnt + 3 }], 4, ms)

/-- Modelled from the spec: Python's `heapq.heappush` is standard-library
code, not part of this repository; spec §9 describes the queue as a binary
max-heap over triangles keyed by `error` (via `Triangle.__lt__`).  A push
only adds its item to the queue's contents. -/
def heappush (pq : List Triangle) (t : Triangle) : List Triangle := pq ++ [t]

/-- Modelled from the spec: Python's `heapq.heappop` on a heap ordered by
`Triangle.__lt__` removes a maximal-`error` element (the spec's "max-heap
property"); we take the first element of maximal `error`. -/
def heappop : List Triangle → Option (Triangle × List Triangle)
  | [] => none
  | t :: ts =>
      match heappop ts with
      | none => some (t, [])
      | some (m, rest) =>
          if Triangle.lt m t then some (m, t :: rest) else some (t, ts)

/-- The state of `AdaptiveMesh.generate`'s refinement loop: the mesh, the
priority queue `pq`, the live-triangle map `tri_dict`, and a ghost `trace`
recording, for every non-stale pop, the popped entry's error together with
the errors of the entries remaining in the queue at that moment. -/
structure LoopState where
  mesh : MeshState
  pq : List Triangle
  triDict : List (ℕ × Triangle)
  trace : List (ℚ × List ℚ)
deriving Repr

/-- `initialize_icosahedron`: the 12 golden-ratio vertices (normalised and
sampled by `add_vertex`) and the 20 faces with ids 0..19, with their edges
registered in `edge_to_triangles`. -/
def init_icosahedron (env : Env) : MeshState :=
  let t := (1 + env.sqrt 5) / 2
  let verts : List Vec3 :=
    [⟨-1, t, 0⟩, ⟨1, t, 0⟩, ⟨-1, -t, 0⟩, ⟨1, -t, 0⟩,
     ⟨0, -1, t⟩, ⟨0, 1, t⟩, ⟨0, -1, -t⟩, ⟨0, 1, -t⟩,
     ⟨t, 0, -1⟩, ⟨t, 0, 1⟩, ⟨-t, 0, -1⟩, ⟨-t, 0, 1⟩]
  let ms0 := verts.foldl (fun ms v => (add_vertex env ms v.x v.y v.z).2)
    emptyMesh
  let faces : List (ℕ × ℕ × ℕ) :=
    [(0, 11, 5), (0, 5, 1), (0, 1, 7), (0, 7, 10), (0, 10, 11),
     (1, 5, 9), (5, 11, 4), (11, 10, 2), (10, 7, 6), (7, 1, 8),
     (3, 9, 4), (3, 4, 2), (3, 2, 6), (3, 6, 8), (3, 8, 9),
     (4, 9, 5), (2, 4, 11), (6, 2, 10), (8, 6, 7), (9, 8, 1)]
  faces.foldl
    (fun ms f =>
      let tri : Triangle :=
        { v0 := f.1, v1 := f.2.1, v2 := f.2.2, id := ms.triangleIdCounter }
      { ms with
        triangleIdCounter := ms.triangleIdCounter + 1,
        triangles := ms.triangles ++ [tri],
        edgeToTriangles := tri.edges.foldl
          (fun m e => etUpdate e (fun s => setInsert s tri.id) m)
          ms.edgeToTriangles })
    ms0

/-- The pre-loop phase of `generate`: compute each initial triangle's error,
push it onto the queue and record it in `tri_dict`.  (Python mutates
`tri.error` in place on the objects in `self.triangles`; this is
unobservable because `generate` overwrites `self.triangles` from `tri_dict`
on exit.) -/
def pushInitial (env : Env) : List Triangle → LoopState → LoopState
  | [], st => st
  | tri :: more, st =>
      let tri' := { tri with error := compute_triangle_error env st.mesh tri }
      pushInitial env more
        { st with
          pq := heappush st.pq tri',
          triDict := tinsert tri'.id tri' st.triDict }

/-- The pre-loop phase as a whole, starting from the freshly initialised
mesh with an empty queue, live map and trace. -/
def buildInitialQueue (env : Env) (ms : MeshState) : LoopState :=
  pushInitial env ms.triangles { mesh := ms, pq := [], triDict := [], trace := [] }

/-- The per-child bookkeeping at the end of a subdivision step: compute the
child's error, push it, insert it into `tri_dict`, and register its edges in
`edge_to_triangles`. -/
def addChildren (env : Env) : List Triangle → LoopState → LoopState
  | [], st => st
  | nt :: more, st =>
      let nt' := { nt with error := compute_triangle_error env st.mesh nt }
      addChildren env more
        { st with
          pq := heappush st.pq nt',
          triDict := tinsert nt'.id nt' st.triDict,
          mesh := { st.mesh with
            edgeToTriangles := nt'.edges.foldl
              (fun m e => etUpdate e (fun s => setInsert s nt'.id) m)
              st.mesh.edgeToTriangles } }

/-- The maximal edge angular length of the popped triangle, exactly as the
loop computes it: `arccos (clip (dot a b) (-1) 1)` over the three edges. -/
def max_edge_length (env : Env) (ms : MeshState) (tri : Triangle) : ℚ :=
  let v0 := ms.vertices.getD tri.v0 ⟨0, 0, 0⟩
  let v1 := ms.vertices.getD tri.v1 ⟨0, 0, 0⟩
  let v2 := ms.vertices.getD tri.v2 ⟨0, 0, 0⟩
  let l01 := env.arccos (clip (Vec3.dot v0 v1) (-1) 1)
  let l12 := env.arccos (clip (Vec3.dot v1 v2) (-1) 1)
  let l20 := env.arccos (clip (Vec3.dot v2 v0) (-1) 1)
  max (max l01 l12) l20

/-- One pass through the body of `generate`'s `while` loop (the loop guard
itself lives in `loopRun`).  `Sum.inl` is a `break` (loop over), `Sum.inr`
is a `continue` / fall-through to the next iteration. -/
def loopIter (env : Env) (maxV : ℕ) (thr minE : ℚ) (st : LoopState) :
    LoopState ⊕ LoopState :=
  match heappop st.pq with
  | none => Sum.inl st
  | some (tri, rest) =>
      if (tlookup tri.id st.triDict).isNone then
        Sum.inr { st with pq := rest }
      else
        let st1 : LoopState :=
          { st with
            pq := rest,
            trace := st.trace ++ [(tri.error, rest.map Triangle.error)] }
        if tri.error < thr then
          Sum.inl st1
        else if max_edge_length env st1.mesh tri < minE then
          Sum.inr st1
        else
          let r := subdivide_triangle_conforming env st1.mesh tri
          if maxV < r.2.2.vertices.length + r.2.1 then
            Sum.inl { st1 with mesh := r.2.2 }
          else
            let ms2 := { r.2.2 with
              triangleIdCounter := r.2.2.triangleIdCounter + r.2.1 }
            let ms3 := { ms2 with
              edgeToTriangles := tri.edges.foldl
                (fun m e => etUpdate e (fun s => setDiscard s tri.id) m)
                ms2.edgeToTriangles }
            Sum.inr (addChildren env r.1
              { st1 with mesh := ms3, triDict := terase tri.id st1.triDict })

/-- The `while pq and len(self.vertices) < max_vertices` loop, with explicit
fuel; the boolean is `true` when the loop genuinely terminated (guard failed
or `break`) and `false` when the fuel ran out first. -/
def loopRun (env : Env) (maxV : ℕ) (thr minE : ℚ) :
    ℕ → LoopState → LoopState × Bool
  | 0, st => (st, false)
  | Nat.succ fuel, st =>
      if st.pq ≠ [] ∧ st.mesh.vertices.length < maxV then
        match loopIter env maxV thr minE st with
        | Sum.inl stop => (stop, true)
        | Sum.inr next => loopRun env maxV thr minE fuel next
      else (st, true)

/-- `self.triangles = list(tri_dict.values())` on loop exit. -/
def finalizeState (st : LoopState) : LoopState :=
  { st with
    mesh := { st.mesh with triangles := st.triDict.map Prod.snd } }

/-- `AdaptiveMesh.generate`: initialise the icosahedron, build the initial
queue, run the refinement loop, and collect the live triangles.
`min_edge_length` is taken as an explicit argument (its Python-side `None`
default, `π/4320`, is computed by the caller). -/
def generate (env : Env) (maxV : ℕ) (thr minE : ℚ) (fuel : ℕ) :
    LoopState × Bool :=
  let ms := init_icosahedron env
  let st0 := buildInitialQueue env ms
  let r := loopRun env maxV thr minE fuel st0
  (finalizeState r.1, r.2)

/-- Collapse the `break`/`continue` distinction of `loopIter`. -/
def outState : LoopState ⊕ LoopState → LoopState := Sum.elim id id

/-- The property claimed of the ghost trace: each non-stale pop's error
dominates the error of every entry remaining in the queue at that pop. -/
def TraceOK (st : LoopState) : Prop := ∀ p ∈ st.trace, ∀ e ∈ p.2, e ≤ p.1

/-- A trivial interpretation of the collaborators: the zero field, with
`sqrt` and `arccos` constantly `1`. -/
def envZero : Env :=
  { sample := fun _ => 0, sqrt := fun _ => 1, arccos := fun _ => 1 }

/-- An interpretation whose field is `10` at the centroid of icosahedron
face 0 and `-1000` at the centroid of that face's first child triangle
(with `sqrt` and `arccos` constantly `1`), so that subdividing face 0
produces a child whose estimated error (1000) exceeds its parent's (10). -/
def envC2 : Env :=
  { sample := fun v =>
      if v = ⟨-2/3, 2/3, 2/3⟩ then 10
      else if v = ⟨-5/6, 5/6, 1/3⟩ then -1000
      else 0,
    sqrt := fun _ => 1, arccos := fun _ => 1 }

/-- The loop state right before the first iteration of `generate` under
`envZero`. -/
def icoStateZero : LoopState :=
  buildInitialQueue envZero (init_icosahedron envZero)

/-- Icosahedron face 0 (vertices 0, 11, 5; id 0) with its computed error
under `envZero`. -/
def icoTriZero : Triangle := { v0 := 0, v1 := 11, v2 := 5, error := 0, id := 0 }

/-- Follows the words of claim C8 and spec §4.4 for one test point: project
to the unit sphere, sample the field, and compare with the value
interpolated from the three corner elevations with inverse-distance weights
`1/(distance + 1e-10)` normalised to sum to 1 (no degenerate-distance
guard). -/
def claimed_point_error (env : Env) (v0 v1 v2 : Vec3) (e0 e1 e2 : ℚ)
    (point : Vec3) : ℚ :=
  let p := Vec3.smul (1 / env.sqrt point.normSq) point
  let actual := env.sample p
  let dist0 := env.sqrt (p.sub v0).normSq
  let dist1 := env.sqrt (p.sub v1).normSq
  let dist2 := env.sqrt (p.sub v2).normSq
  let w0 := 1 / (dist0 + idwEps)
  let w1 := 1 / (dist1 + idwEps)
  let w2 := 1 / (dist2 + idwEps)
  let total_w := w0 + w1 + w2
  |actual - ((w0 / total_w) * e0 + (w1 / total_w) * e1 + (w2 / total_w) * e2)|

/-- Follows the words of claim C8: the maximum, over exactly the four test
points (centroid and three edge midpoints), of the pointwise interpolation
error. -/
def claimed_triangle_error (env : Env) (ms : MeshState) (tri : Triangle) :
    ℚ :=
  let v0 := ms.vertices.getD tri.v0 ⟨0, 0, 0⟩
  let v1 := ms.vertices.getD tri.v1 ⟨0, 0, 0⟩
  let v2 := ms.vertices.getD tri.v2 ⟨0, 0, 0⟩
  let e0 := ms.elevations.getD tri.v0 0
  let e1 := ms.elevations.getD tri.v1 0
  let e2 := ms.elevations.getD tri.v2 0
  max
    (max
      (max
        (claimed_point_error env v0 v1 v2 e0 e1 e2
          (Vec3.smul (1/3) (Vec3.add v0 (Vec3.add v1 v2))))
        (claimed_point_error env v0 v1 v2 e0 e1 e2
          (Vec3.smul (1/2) (Vec3.add v0 v1))))
      (claimed_point_error env v0 v1 v2 e0 e1 e2
        (Vec3.smul (1/2) (Vec3.add v1 v2))))
    (claimed_point_error env v0 v1 v2 e0 e1 e2
      (Vec3.smul (1/2) (Vec3.add v2 v0)))

/-! ### Basic lemmas about the canonical edge key and `get_midpoint` -/

theorem edgeKey_comm (a b : ℕ) : edgeKey a b = edgeKey b a := by
  simp [edgeKey, min_comm, max_comm]

theorem get_midpoint_hit (env : Env) (ms : MeshState) (a b m : ℕ)
    (h : dlookup (edgeKey a b) ms.edges = some m) :
    get_midpoint env ms a b = (m, ms) := by
  simp [get_midpoint, h]

theorem get_midpoint_miss (env : Env) (ms : MeshState) (a b : ℕ)
    (h : dlookup (edgeKey a b) ms.edges = none) :
    ∃ v s,
      get_midpoint env ms a b =
        (ms.vertices.length,
         { ms with
           vertices := ms.vertices ++ [v],
           elevations := ms.elevations ++ [s],
           samples := ms.samples + 1,
           edges := (edgeKey a b, ms.vertices.length) :: ms.edges }) := by
  simp only [get_midpoint, h, add_vertex]
  exact ⟨_, _, rfl⟩

/-- Claim C4: `get_midpoint` is idempotent: once the edge has been looked up
(in either argument order) a repeated call returns the same midpoint index
and leaves the whole state untouched, and a call that hits the cache is a
pure read: it returns the cached index with a state identical to the input
one (no vertex appended, no sampler call, cache unchanged). -/
theorem c4_get_midpoint_idempotent (env : Env) (ms : MeshState) (a b : ℕ) :
    (get_midpoint env (get_midpoint env ms a b).2 a b =
        get_midpoint env ms a b ∧
      get_midpoint env (get_midpoint env ms a b).2 b a =
        get_midpoint env ms a b) ∧
    (∀ m, dlookup (edgeKey a b) ms.edges = some m →
      get_midpoint env ms a b = (m, ms)) := by
  have hcomm : edgeKey b a = edgeKey a b := edgeKey_comm b a
  refine ⟨?_, fun m h => get_midpoint_hit env ms a b m h⟩
  cases h : dlookup (edgeKey a b) ms.edges with
  | some m =>
      rw [get_midpoint_hit env ms a b m h]
      exact ⟨get_midpoint_hit env ms a b m h,
        get_midpoint_hit env ms b a m (by rw [hcomm]; exact h)⟩
  | none =>
      obtain ⟨v, s, hr⟩ := get_midpoint_miss env ms a b h
      rw [hr]
      exact ⟨get_midpoint_hit env _ a b _ (by simp [dlookup]),
        get_midpoint_hit env _ b a _ (by simp [dlookup, hcomm])⟩

/-- Witness for C4's cache-hit clause at a concrete state. -/
theorem c4_witness :
    dlookup (edgeKey 0 1)
        [((0, 1), (7 : ℕ))] = some 7 ∧
      get_midpoint
        { sample := fun _ => 0, sqrt := fun _ => 1, arccos := fun _ => 1 }
        { emptyMesh with edges := [((0, 1), 7)] } 0 1 =
        (7, { emptyMesh with edges := [((0, 1), 7)] }) :=
  ⟨by decide,
   (c4_get_midpoint_idempotent
      { sample := fun _ => 0, sqrt := fun _ => 1, arccos := fun _ => 1 }
      { emptyMesh with edges := [((0, 1), 7)] } 0 1).2 7 (by decide)⟩

/-! ### Branch characterisations of `subdivide_triangle_conforming` -/

theorem subdivide_k1_m01 (env : Env) (ms : MeshState) (tri : Triangle)
    (m : ℕ) (h01 : dlookup (edgeKey tri.v0 tri.v1) ms.edges = some m)
    (h12 : dlookup (edgeKey tri.v1 tri.v2) ms.edges = none)
    (h20 : dlookup (edgeKey tri.v2 tri.v0) ms.edges = none) :
    subdivide_triangle_conforming env ms tri =
      ([{ v0 := tri.v0, v1 := m, v2 := tri.v2, error := 0,
          id := ms.triangleIdCounter },
        { v0 := m, v1 := tri.v1, v2 := tri.v2, error := 0,
          id := ms.triangleIdCounter + 1 }], 2, ms) := by
  simp [subdivide_triangle_conforming, h01, h12, h20]

theorem subdivide_k1_m12 (env : Env) (ms : MeshState) (tri : Triangle)
    (m : ℕ) (h01 : dlookup (edgeKey tri.v0 tri.v1) ms.edges = none)
    (h12 : dlookup (edgeKey tri.v1 tri.v2) ms.edges = some m)
    (h20 : dlookup (edgeKey tri.v2 tri.v0) ms.edges = none) :
    subdivide_triangle_conforming env ms tri =
      ([{ v0 := tri.v1, v1 := m, v2 := tri.v0, error := 0,
          id := ms.triangleIdCounter },
        { v0 := m, v1 := tri.v2, v2 := tri.v0, error := 0,
          id := ms.triangleIdCounter + 1 }], 2, ms) := by
  simp [subdivide_triangle_conforming, h01, h12, h20]

theorem subdivide_k1_m20 (env : Env) (ms : MeshState) (tri : Triangle)
    (m : ℕ) (h01 : dlookup (edgeKey tri.v0 tri.v1) ms.edges = none)
    (h12 : dlookup (edgeKey tri.v1 tri.v2) ms.edges = none)
    (h20 : dlookup (edgeKey tri.v2 tri.v0) ms.edges = some m) :
    subdivide_triangle_conforming env ms tri =
      ([{ v0 := tri.v2, v1 := m, v2 := tri.v1, error := 0,
          id := ms.triangleIdCounter },
        { v0 := m, v1 := tri.v0, v2 := tri.v1, error := 0,
          id := ms.triangleIdCounter + 1 }], 2, ms) := by
  simp [subdivide_triangle_conforming, h01, h12, h20]

theorem subdivide_k3 (env : Env) (ms : MeshState) (tri : Triangle)
    (m01 m12 m20 : ℕ)
    (h01 : dlookup (edgeKey tri.v0 tri.v1) ms.edges = some m01)
    (h12 : dlookup (edgeKey tri.v1 tri.v2) ms.edges = some m12)
    (h20 : dlookup (edgeKey tri.v2 tri.v0) ms.edges = some m20) :
    subdivide_triangle_conforming env ms tri =
      ([{ v0 := tri.v0, v1 := m01, v2 := m20, error := 0,
          id := ms.triangleIdCounter },
        { v0 := tri.v1, v1 := m12, v2 := m01, error := 0,
          id := ms.triangleIdCounter + 1 },
        { v0 := tri.v2, v1 := m20, v2 := m12, error := 0,
          id := ms.triangleIdCounter + 2 },
        { v0 := m01, v1 := m12, v2 := m20, error := 0,
          id := ms.triangleIdCounter + 3 }], 4, ms) := by
  simp [subdivide_triangle_conforming, h01, h12, h20]

theorem subdivide_k0 (env : Env) (ms : MeshState) (tri : Triangle)
    (h01 : dlookup (edgeKey tri.v0 tri.v1) ms.edges = none)
    (h12 : dlookup (edgeKey tri.v1 tri.v2) ms.edges = none)
    (h20 : dlookup (edgeKey tri.v2 tri.v0) ms.edges = none)
    (hd1 : edgeKey tri.v0 tri.v1 ≠ edgeKey tri.v1 tri.v2)
    (hd2 : edgeKey tri.v0 tri.v1 ≠ edgeKey tri.v2 tri.v0)
    (hd3 : edgeKey tri.v1 tri.v2 ≠ edgeKey tri.v2 tri.v0) :
    ∃ va sa vb sb vc sc,
      subdivide_triangle_conforming env ms tri =
        ([{ v0 := tri.v0, v1 := ms.vertices.length,
            v2 := ms.vertices.length + 2, error := 0,
            id := ms.triangleIdCounter },
          { v0 := tri.v1, v1 := ms.vertices.length + 1,
            v2 := ms.vertices.length, error := 0,
            id := ms.triangleIdCounter + 1 },
          { v0 := tri.v2, v1 := ms.vertices.length + 2,
            v2 := ms.vertices.length + 1, error := 0,
            id := ms.triangleIdCounter + 2 },
          { v0 := ms.vertices.length, v1 := ms.vertices.length + 1,
            v2 := ms.vertices.length + 2, error := 0,
            id := ms.triangleIdCounter + 3 }], 4,
         { ms with
           vertices := ms.vertices ++ [va, vb, vc],
           elevations := ms.elevations ++ [sa, sb, sc],
           samples := ms.samples + 3,
           edges :=
             (edgeKey tri.v2 tri.v0, ms.vertices.length + 2) ::
               (edgeKey tri.v1 tri.v2, ms.vertices.length + 1) ::
                 (edgeKey tri.v0 tri.v1, ms.vertices.length) :: ms.edges }) := by
  obtain ⟨va, sa, hr01⟩ := get_midpoint_miss env ms tri.v0 tri.v1 h01
  set ms1 : MeshState :=
    { ms with
      vertices := ms.vertices ++ [va],
      elevations := ms.elevations ++ [sa],
      samples := ms.samples + 1,
      edges := (edgeKey tri.v0 tri.v1, ms.vertices.length) :: ms.edges }
    with hms1
  have hlk12 : dlookup (edgeKey tri.v1 tri.v2) ms1.edges = none := by
    simp [hms1, dlookup, hd1, h12]
  obtain ⟨vb, sb, hr12⟩ := get_midpoint_miss env ms1 tri.v1 tri.v2 hlk12
  set ms2 : MeshState :=
    { ms1 with
      vertices := ms1.vertices ++ [vb],
      elevations := ms1.elevations ++ [sb],
      samples := ms1.samples + 1,
      edges := (edgeKey tri.v1 tri.v2, ms1.vertices.length) :: ms1.edges }
    with hms2
  have hlk20 : dlookup (edgeKey tri.v2 tri.v0) ms2.edges = none := by
    simp [hms2, hms1, dlookup, hd2, hd3, h20]
  obtain ⟨vc, sc, hr20⟩ := get_midpoint_miss env ms2 tri.v2 tri.v0 hlk20
  refine ⟨va, sa, vb, sb, vc, sc, ?_⟩
  simp only [subdivide_triangle_conforming, h01, h12, h20, Option.isSome_none,
    Bool.false_eq_true, if_false, Nat.add_zero, if_pos rfl, hr01, hr12, hr20]
  have hlen1 : ms1.vertices.length = ms.vertices.length + 1 := by
    simp [hms1]
  have hlen2 : ms2.vertices.length = ms.vertices.length + 2 := by
    simp [hms2, hms1]
  rw [hlen1, hlen2]
  simp [hms2, hms1]

/-- Claim C3: for a triangle exactly one of whose three edges has a cached
midpoint, `subdivide_triangle_conforming` returns exactly 2 triangles, both
referencing that midpoint, creating no new vertex (the state is returned
unchanged); when the split edge is `(v0, v1)` with midpoint `m01` it emits
`(v0, m01, v2)` and `(m01, v1, v2)`. -/
theorem c3_k1_bisection (env : Env) (ms : MeshState) (tri : Triangle)
    (h : ((if (dlookup (edgeKey tri.v0 tri.v1) ms.edges).isSome then 1
            else 0) +
          (if (dlookup (edgeKey tri.v1 tri.v2) ms.edges).isSome then 1
            else 0) +
          (if (dlookup (edgeKey tri.v2 tri.v0) ms.edges).isSome then 1
            else 0) : ℕ) = 1) :
    (subdivide_triangle_conforming env ms tri).2.1 = 2 ∧
    (subdivide_triangle_conforming env ms tri).1.length = 2 ∧
    (subdivide_triangle_conforming env ms tri).2.2 = ms ∧
    ∃ m, (∃ e, e ∈ tri.edges ∧ dlookup e ms.edges = some m) ∧
      (∀ t ∈ (subdivide_triangle_conforming env ms tri).1,
          m = t.v0 ∨ m = t.v1 ∨ m = t.v2) ∧
      (∀ m01, dlookup (edgeKey tri.v0 tri.v1) ms.edges = some m01 →
        (subdivide_triangle_conforming env ms tri).1 =
          [{ v0 := tri.v0, v1 := m01, v2 := tri.v2, error := 0,
             id := ms.triangleIdCounter },
           { v0 := m01, v1 := tri.v1, v2 := tri.v2, error := 0,
             id := ms.triangleIdCounter + 1 }]) := by
  cases h01 : dlookup (edgeKey tri.v0 tri.v1) ms.edges with
  | some m =>
      cases h12 : dlookup (edgeKey tri.v1 tri.v2) ms.edges with
      | some m12 =>
          cases h20 : dlookup (edgeKey tri.v2 tri.v0) ms.edges with
          | some m20 => simp [h01, h12, h20] at h
          | none => simp [h01, h12, h20] at h
      | none =>
          cases h20 : dlookup (edgeKey tri.v2 tri.v0) ms.edges with
          | some m20 => simp [h01, h12, h20] at h
          | none =>
              rw [subdivide_k1_m01 env ms tri m h01 h12 h20]
              refine ⟨rfl, rfl, rfl, m,
                ⟨edgeKey tri.v0 tri.v1, by simp [Triangle.edges], h01⟩,
                ?_, ?_⟩
              · intro t ht
                simp at ht
                rcases ht with rfl | rfl <;> simp
              · intro m01 hm01
                injection hm01 with hm
                subst hm
                rfl
  | none =>
      cases h12 : dlookup (edgeKey tri.v1 tri.v2) ms.edges with
      | some m =>
          cases h20 : dlookup (edgeKey tri.v2 tri.v0) ms.edges with
          | some m20 => simp [h01, h12, h20] at h
          | none =>
              rw [subdivide_k1_m12 env ms tri m h01 h12 h20]
              refine ⟨rfl, rfl, rfl, m,
                ⟨edgeKey tri.v1 tri.v2, by simp [Triangle.edges], h12⟩,
                ?_, ?_⟩
              · intro t ht
                simp at ht
                rcases ht with rfl | rfl <;> simp
              · intro m01 hm01
                exact absurd hm01 (by simp)
      | none =>
          cases h20 : dlookup (edgeKey tri.v2 tri.v0) ms.edges with
          | none => simp [h01, h12, h20] at h
          | some m =>
              rw [subdivide_k1_m20 env ms tri m h01 h12 h20]
              refine ⟨rfl, rfl, rfl, m,
                ⟨edgeKey tri.v2 tri.v0, by simp [Triangle.edges], h20⟩,
                ?_, ?_⟩
              · intro t ht
                simp at ht
                rcases ht with rfl | rfl <;> simp
              · intro m01 hm01
                exact absurd hm01 (by simp)

/-- Witness for C3 at a concrete state: the triangle `(0,1,2)` with only
edge `(0,1)` carrying cached midpoint `3`. -/
theorem c3_witness :
    ((if (dlookup (edgeKey 0 1) [((0, 1), (3 : ℕ))]).isSome then 1 else 0) +
      (if (dlookup (edgeKey 1 2) [((0, 1), (3 : ℕ))]).isSome then 1 else 0) +
      (if (dlookup (edgeKey 2 0) [((0, 1), (3 : ℕ))]).isSome then 1
        else 0) : ℕ) = 1 ∧
    (subdivide_triangle_conforming
      { sample := fun _ => 0, sqrt := fun _ => 1, arccos := fun _ => 1 }
      { emptyMesh with edges := [((0, 1), 3)] }
      { v0 := 0, v1 := 1, v2 := 2, error := 0, id := 0 }).2.1 = 2 := by
  refine ⟨by decide, ?_⟩
  exact (c3_k1_bisection
    { sample := fun _ => 0, sqrt := fun _ => 1, arccos := fun _ => 1 }
    { emptyMesh with edges := [((0, 1), 3)] }
    { v0 := 0, v1 := 1, v2 := 2, error := 0, id := 0 } (by decide)).1

/-- Claim C5: for a triangle all three of whose edges already carry cached
midpoints (`k = 3`), `subdivide_triangle_conforming` emits the same
four-triangle pattern as the `k = 0` case — `(v0,m01,m20)`, `(v1,m12,m01)`,
`(v2,m20,m12)`, `(m01,m12,m20)` — creating no new vertex (state unchanged),
whereas with no cached midpoints (`k = 0`, on a triangle with three distinct
edges) the same pattern is produced with the three freshly created midpoint
indices and exactly three new vertices. -/
theorem c5_k3_matches_k0 (env : Env) (ms : MeshState) (tri : Triangle) :
    (∀ m01 m12 m20,
      dlookup (edgeKey tri.v0 tri.v1) ms.edges = some m01 →
      dlookup (edgeKey tri.v1 tri.v2) ms.edges = some m12 →
      dlookup (edgeKey tri.v2 tri.v0) ms.edges = some m20 →
      subdivide_triangle_conforming env ms tri =
        ([{ v0 := tri.v0, v1 := m01, v2 := m20, error := 0,
            id := ms.triangleIdCounter },
          { v0 := tri.v1, v1 := m12, v2 := m01, error := 0,
            id := ms.triangleIdCounter + 1 },
          { v0 := tri.v2, v1 := m20, v2 := m12, error := 0,
            id := ms.triangleIdCounter + 2 },
          { v0 := m01, v1 := m12, v2 := m20, error := 0,
            id := ms.triangleIdCounter + 3 }], 4, ms)) ∧
    (dlookup (edgeKey tri.v0 tri.v1) ms.edges = none →
      dlookup (edgeKey tri.v1 tri.v2) ms.edges = none →
      dlookup (edgeKey tri.v2 tri.v0) ms.edges = none →
      edgeKey tri.v0 tri.v1 ≠ edgeKey tri.v1 tri.v2 →
      edgeKey tri.v0 tri.v1 ≠ edgeKey tri.v2 tri.v0 →
      edgeKey tri.v1 tri.v2 ≠ edgeKey tri.v2 tri.v0 →
      (subdivide_triangle_conforming env ms tri).1 =
        [{ v0 := tri.v0, v1 := ms.vertices.length,
           v2 := ms.vertices.length + 2, error := 0,
           id := ms.triangleIdCounter },
         { v0 := tri.v1, v1 := ms.vertices.length + 1,
           v2 := ms.vertices.length, error := 0,
           id := ms.triangleIdCounter + 1 },
         { v0 := tri.v2, v1 := ms.vertices.length + 2,
           v2 := ms.vertices.length + 1, error := 0,
           id := ms.triangleIdCounter + 2 },
         { v0 := ms.vertices.length, v1 := ms.vertices.length + 1,
           v2 := ms.vertices.length + 2, error := 0,
           id := ms.triangleIdCounter + 3 }] ∧
      (subdivide_triangle_conforming env ms tri).2.1 = 4 ∧
      (subdivide_triangle_conforming env ms tri).2.2.vertices.length =
        ms.vertices.length + 3 ∧
      dlookup (edgeKey tri.v0 tri.v1)
        (subdivide_triangle_conforming env ms tri).2.2.edges =
          some ms.vertices.length ∧
      dlookup (edgeKey tri.v1 tri.v2)
        (subdivide_triangle_conforming env ms tri).2.2.edges =
          some (ms.vertices.length + 1) ∧
      dlookup (edgeKey tri.v2 tri.v0)
        (subdivide_triangle_conforming env ms tri).2.2.edges =
          some (ms.vertices.length + 2)) := by
  constructor
  · intro m01 m12 m20 h01 h12 h20
    exact subdivide_k3 env ms tri m01 m12 m20 h01 h12 h20
  · intro h01 h12 h20 hd1 hd2 hd3
    obtain ⟨va, sa, vb, sb, vc, sc, hr⟩ :=
      subdivide_k0 env ms tri h01 h12 h20 hd1 hd2 hd3
    rw [hr]
    refine ⟨rfl, rfl, by simp, ?_, ?_, ?_⟩
    · simp [dlookup, (Ne.symm hd2), (Ne.symm hd1)]
    · simp [dlookup, (Ne.symm hd3)]
    · simp [dlookup]

/-- Witness for C5 at a concrete state: triangle `(0,1,2)`, first with all
three midpoints cached, then with an empty cache. -/
theorem c5_witness :
    (subdivide_triangle_conforming
      { sample := fun _ => 0, sqrt := fun _ => 1, arccos := fun _ => 1 }
      { emptyMesh with edges := [((0, 1), 3), ((1, 2), 4), ((0, 2), 5)] }
      { v0 := 0, v1 := 1, v2 := 2, error := 0, id := 0 } =
      ([{ v0 := 0, v1 := 3, v2 := 5, error := 0, id := 0 },
        { v0 := 1, v1 := 4, v2 := 3, error := 0, id := 1 },
        { v0 := 2, v1 := 5, v2 := 4, error := 0, id := 2 },
        { v0 := 3, v1 := 4, v2 := 5, error := 0, id := 3 }], 4,
       { emptyMesh with
         edges := [((0, 1), 3), ((1, 2), 4), ((0, 2), 5)] })) ∧
    (subdivide_triangle_conforming
      { sample := fun _ => 0, sqrt := fun _ => 1, arccos := fun _ => 1 }
      { emptyMesh with
        vertices := [⟨1, 0, 0⟩, ⟨0, 1, 0⟩, ⟨0, 0, 1⟩] }
      { v0 := 0, v1 := 1, v2 := 2, error := 0, id := 0 }).2.2.vertices.length
      = 6 := by
  constructor
  · exact (c5_k3_matches_k0
      { sample := fun _ => 0, sqrt := fun _ => 1, arccos := fun _ => 1 }
      { emptyMesh with edges := [((0, 1), 3), ((1, 2), 4), ((0, 2), 5)] }
      { v0 := 0, v1 := 1, v2 := 2, error := 0, id := 0 }).1 3 4 5
      (by decide) (by decide) (by decide)
  · have h := ((c5_k3_matches_k0
      { sample := fun _ => 0, sqrt := fun _ => 1, arccos := fun _ => 1 }
      { emptyMesh with
        vertices := [⟨1, 0, 0⟩, ⟨0, 1, 0⟩, ⟨0, 0, 1⟩] }
      { v0 := 0, v1 := 1, v2 := 2, error := 0, id := 0 }).2
      (by decide) (by decide) (by decide)
      (by decide) (by decide) (by decide)).2.2.1
    rw [h]
    rfl

/-! ### The modelled priority queue: pop returns a maximal-error element -/

theorem heappop_eq_none {l : List Triangle} : heappop l = none ↔ l = [] := by
  cases l with
  | nil => simp [heappop]
  | cons t ts =>
      simp only [heappop]
      cases h : heappop ts with
      | none => simp
      | some mr =>
          obtain ⟨m, rest⟩ := mr
          by_cases hlt : Triangle.lt m t <;> simp [hlt]

theorem heappop_max {l : List Triangle} {x : Triangle} {r : List Triangle}
    (h : heappop l = some (x, r)) : ∀ y ∈ l, y.error ≤ x.error := by
  induction l generalizing x r with
  | nil => simp [heappop] at h
  | cons t ts ih =>
      rw [heappop] at h
      cases hts : heappop ts with
      | none =>
          have hnil : ts = [] := heappop_eq_none.mp hts
          subst hnil
          rw [hts] at h
          injection h with h1
          injection h1 with h2 h3
          subst h2
          intro y hy
          simp at hy
          subst hy
          exact le_refl _
      | some mr =>
          obtain ⟨m, rest⟩ := mr
          rw [hts] at h
          dsimp only at h
          by_cases hlt : Triangle.lt m t
          · rw [if_pos hlt] at h
            injection h with h1
            injection h1 with h2 h3
            subst h2
            intro y hy
            rcases List.mem_cons.mp hy with rfl | hy
            · exact le_of_lt hlt
            · exact ih hts y hy
          · rw [if_neg hlt] at h
            injection h with h1
            injection h1 with h2 h3
            subst h2
            intro y hy
            rcases List.mem_cons.mp hy with rfl | hy
            · exact le_refl _
            · exact le_trans (ih hts y hy) (not_lt.mp hlt)

theorem heappop_perm {l : List Triangle} {x : Triangle} {r : List Triangle}
    (h : heappop l = some (x, r)) : l.Perm (x :: r) := by
  induction l generalizing x r with
  | nil => simp [heappop] at h
  | cons t ts ih =>
      rw [heappop] at h
      cases hts : heappop ts with
      | none =>
          have hnil : ts = [] := heappop_eq_none.mp hts
          subst hnil
          rw [hts] at h
          injection h with h1
          injection h1 with h2 h3
          subst h2
          subst h3
          exact List.Perm.refl _
      | some mr =>
          obtain ⟨m, rest⟩ := mr
          rw [hts] at h
          dsimp only at h
          by_cases hlt : Triangle.lt m t
          · rw [if_pos hlt] at h
            injection h with h1
            injection h1 with h2 h3
            subst h2
            subst h3
            exact List.Perm.trans (List.Perm.cons t (ih hts))
              (List.Perm.swap m t rest)
          · rw [if_neg hlt] at h
            injection h with h1
            injection h1 with h2 h3
            subst h2
            subst h3
            exact List.Perm.refl _

theorem heappop_mem {l : List Triangle} {x y : Triangle} {r : List Triangle}
    (h : heappop l = some (x, r)) (hy : y ∈ r) : y ∈ l :=
  (heappop_perm h).mem_iff.mpr (List.mem_cons_of_mem x hy)

theorem heappop_rest_le {l : List Triangle} {x : Triangle}
    {r : List Triangle} (h : heappop l = some (x, r)) :
    ∀ y ∈ r, y.error ≤ x.error :=
  fun y hy => heappop_max h y (heappop_mem h hy)

/-! ### Characterisation of the five branches of the loop body -/

theorem loopIter_stale (env : Env) (maxV : ℕ) (thr minE : ℚ)
    (st : LoopState) (tri : Triangle) (rest : List Triangle)
    (hpop : heappop st.pq = some (tri, rest))
    (hstale : tlookup tri.id st.triDict = none) :
    loopIter env maxV thr minE st = Sum.inr { st with pq := rest } := by
  simp [loopIter, hpop, hstale]

theorem loopIter_threshold (env : Env) (maxV : ℕ) (thr minE : ℚ)
    (st : LoopState) (tri tr : Triangle) (rest : List Triangle)
    (hpop : heappop st.pq = some (tri, rest))
    (hlive : tlookup tri.id st.triDict = some tr)
    (hthr : tri.error < thr) :
    loopIter env maxV thr minE st =
      Sum.inl { st with
        pq := rest,
        trace := st.trace ++ [(tri.error, rest.map Triangle.error)] } := by
  simp [loopIter, hpop, hlive, hthr]

theorem loopIter_nyquist (env : Env) (maxV : ℕ) (thr minE : ℚ)
    (st : LoopState) (tri tr : Triangle) (rest : List Triangle)
    (hpop : heappop st.pq = some (tri, rest))
    (hlive : tlookup tri.id st.triDict = some tr)
    (hthr : ¬tri.error < thr)
    (hedge : max_edge_length env st.mesh tri < minE) :
    loopIter env maxV thr minE st =
      Sum.inr { st with
        pq := rest,
        trace := st.trace ++ [(tri.error, rest.map Triangle.error)] } := by
  simp [loopIter, hpop, hlive, hthr, hedge]

theorem loopIter_budget (env : Env) (maxV : ℕ) (thr minE : ℚ)
    (st : LoopState) (tri tr : Triangle) (rest : List Triangle)
    (hpop : heappop st.pq = some (tri, rest))
    (hlive : tlookup tri.id st.triDict = some tr)
    (hthr : ¬tri.error < thr)
    (hedge : ¬max_edge_length env st.mesh tri < minE)
    (hbud : maxV <
      (subdivide_triangle_conforming env st.mesh tri).2.2.vertices.length +
        (subdivide_triangle_conforming env st.mesh tri).2.1) :
    loopIter env maxV thr minE st =
      Sum.inl { st with
        mesh := (subdivide_triangle_conforming env st.mesh tri).2.2,
        pq := rest,
        trace := st.trace ++ [(tri.error, rest.map Triangle.error)] } := by
  simp [loopIter, hpop, hlive, hthr, hedge, hbud]

theorem loopIter_commit (env : Env) (maxV : ℕ) (thr minE : ℚ)
    (st : LoopState) (tri tr : Triangle) (rest : List Triangle)
    (hpop : heappop st.pq = some (tri, rest))
    (hlive : tlookup tri.id st.triDict = some tr)
    (hthr : ¬tri.error < thr)
    (hedge : ¬max_edge_length env st.mesh tri < minE)
    (hbud : ¬maxV <
      (subdivide_triangle_conforming env st.mesh tri).2.2.vertices.length +
        (subdivide_triangle_conforming env st.mesh tri).2.1) :
    loopIter env maxV thr minE st =
      Sum.inr (addChildren env
        (subdivide_triangle_conforming env st.mesh tri).1
        { st with
          mesh :=
            { (subdivide_triangle_conforming env st.mesh tri).2.2 with
              triangleIdCounter :=
                (subdivide_triangle_conforming env st.mesh
                  tri).2.2.triangleIdCounter +
                  (subdivide_triangle_conforming env st.mesh tri).2.1,
              edgeToTriangles := tri.edges.foldl
                (fun m e => etUpdate e (fun s => setDiscard s tri.id) m)
                (subdivide_triangle_conforming env st.mesh
                  tri).2.2.edgeToTriangles },
          pq := rest,
          trace := st.trace ++ [(tri.error, rest.map Triangle.error)],
          triDict := terase tri.id st.triDict }) := by
  simp [loopIter, hpop, hlive, hthr, hedge, hbud]

/-! ### The ghost trace: every recorded pop dominates the rest of the queue -/

theorem addChildren_trace (env : Env) (l : List Triangle) (st : LoopState) :
    (addChildren env l st).trace = st.trace := by
  induction l generalizing st with
  | nil => rfl
  | cons nt more ih => simp [addChildren, ih]

theorem pushInitial_trace (env : Env) (l : List Triangle) (st : LoopState) :
    (pushInitial env l st).trace = st.trace := by
  induction l generalizing st with
  | nil => rfl
  | cons nt more ih => simp [pushInitial, ih]

theorem loopIter_traceOK (env : Env) (maxV : ℕ) (thr minE : ℚ)
    (st : LoopState) (h : TraceOK st) :
    TraceOK (outState (loopIter env maxV thr minE st)) := by
  cases hpop : heappop st.pq with
  | none =>
      simp [loopIter, hpop, outState]
      exact h
  | some pr =>
      obtain ⟨tri, rest⟩ := pr
      have hnew : ∀ e ∈ rest.map Triangle.error, e ≤ tri.error := by
        intro e he
        obtain ⟨y, hy, rfl⟩ := List.mem_map.mp he
        exact heappop_rest_le hpop y hy
      have hext : ∀ st' : LoopState,
          st'.trace = st.trace ++ [(tri.error, rest.map Triangle.error)] →
          TraceOK st' := by
        intro st' hst'
        intro p hp
        rw [hst'] at hp
        rcases List.mem_append.mp hp with hp | hp
        · exact h p hp
        · simp at hp
          subst hp
          exact hnew
      cases hlv : tlookup tri.id st.triDict with
      | none =>
          rw [loopIter_stale env maxV thr minE st tri rest hpop hlv]
          exact h
      | some tr =>
          by_cases hthr : tri.error < thr
          · rw [loopIter_threshold env maxV thr minE st tri tr rest hpop hlv
              hthr]
            exact hext _ rfl
          · by_cases hedge : max_edge_length env st.mesh tri < minE
            · rw [loopIter_nyquist env maxV thr minE st tri tr rest hpop hlv
                hthr hedge]
              exact hext _ rfl
            · by_cases hbud : maxV <
                (subdivide_triangle_conforming env st.mesh
                  tri).2.2.vertices.length +
                  (subdivide_triangle_conforming env st.mesh tri).2.1
              · rw [loopIter_budget env maxV thr minE st tri tr rest hpop hlv
                  hthr hedge hbud]
                exact hext _ rfl
              · rw [loopIter_commit env maxV thr minE st tri tr rest hpop hlv
                  hthr hedge hbud]
                exact hext _ (addChildren_trace env _ _)

theorem loopRun_traceOK (env : Env) (maxV : ℕ) (thr minE : ℚ) :
    ∀ (fuel : ℕ) (st : LoopState), TraceOK st →
      TraceOK (loopRun env maxV thr minE fuel st).1 := by
  intro fuel
  induction fuel with
  | zero => intro st h; exact h
  | succ fuel ih =>
      intro st h
      rw [loopRun]
      by_cases hg : st.pq ≠ [] ∧ st.mesh.vertices.length < maxV
      · rw [if_pos hg]
        have := loopIter_traceOK env maxV thr minE st h
        cases hit : loopIter env maxV thr minE st with
        | inl stop =>
            rw [hit] at this
            exact this
        | inr next =>
            rw [hit] at this
            exact ih next this
      · rw [if_neg hg]
        exact h

/-- Amended claim C2: it is not true that the non-stale pop errors are
globally non-increasing (children may be pushed with larger error than their
popped parent, see `c2_counterexample`); what does hold is the max-queue pop
property the spec invokes: at every non-stale pop, the popped entry's error
is at least the error of every entry remaining in the queue at that moment
(so the sequence is non-increasing precisely in the absence of intervening
higher-error pushes). -/
theorem c2_amended_pop_dominates (env : Env) (maxV : ℕ) (thr minE : ℚ)
    (fuel : ℕ) :
    TraceOK (generate env maxV thr minE fuel).1 := by
  have h0 : TraceOK (buildInitialQueue env (init_icosahedron env)) := by
    intro p hp
    rw [buildInitialQueue, pushInitial_trace] at hp
    simp at hp
  have h1 := loopRun_traceOK env maxV thr minE fuel
    (buildInitialQueue env (init_icosahedron env)) h0
  intro p hp
  exact h1 p hp

/-- Counterexample to claim C2 as stated: under `envC2` (a perfectly legal
field sampler) the completed run `generate envC2 20 (1/2) 0 5` performs two
non-stale pops, recorded in the ghost trace, with errors `10` then `1000`:
the sequence of non-stale pop errors is not non-increasing, because the
subdivision of face 0 pushes a child with a strictly larger estimated error
than its parent. -/
theorem c2_counterexample :
    (generate envC2 20 (1/2) 0 5).2 = true ∧
    ((generate envC2 20 (1/2) 0 5).1.trace.map Prod.fst) = [10, 1000] ∧
    ¬ List.Chain' (fun a b : ℚ => b ≤ a)
        ((generate envC2 20 (1/2) 0 5).1.trace.map Prod.fst) := by
  have h2 : ((generate envC2 20 (1/2) 0 5).1.trace.map Prod.fst) =
      [10, 1000] := by
    with_unfolding_all decide
  refine ⟨by with_unfolding_all decide, h2, ?_⟩
  rw [h2]
  intro hch
  have hle := List.chain'_pair.mp hch
  norm_num at hle

/-- Witness for the amended claim C2 at a concrete run: in the `envZero`
budget-limited run the first recorded pop has error `0` and the remaining
queue errors are all `0`, which the amended theorem dominates. -/
theorem c2_witness :
    ((0 : ℚ), List.replicate 19 (0 : ℚ)) ∈
        (generate envZero 13 0 0 5).1.trace ∧
      (0 : ℚ) ≤ 0 :=
  ⟨by with_unfolding_all decide,
   c2_amended_pop_dominates envZero 13 0 0 5
     ((0 : ℚ), List.replicate 19 (0 : ℚ))
     (by with_unfolding_all decide) 0 (by decide)⟩

/-- Claim C9: popping a queue entry whose triangle id is absent from the
live-triangle map only removes that entry from the queue: the loop
continues, and the vertex list, elevation list, edge-midpoint cache,
live-triangle map, `edge_to_triangles`, ghost trace (so no error is
recorded) and ghost sampler counter (so no sampler call is made) are
exactly as before the pop. -/
theorem c9_stale_pop_frame (env : Env) (maxV : ℕ) (thr minE : ℚ)
    (st : LoopState) (tri : Triangle) (rest : List Triangle)
    (hpop : heappop st.pq = some (tri, rest))
    (hstale : tlookup tri.id st.triDict = none) :
    loopIter env maxV thr minE st = Sum.inr { st with pq := rest } ∧
    ({ st with pq := rest } : LoopState).mesh.vertices = st.mesh.vertices ∧
    ({ st with pq := rest } : LoopState).mesh.elevations =
      st.mesh.elevations ∧
    ({ st with pq := rest } : LoopState).mesh.edges = st.mesh.edges ∧
    ({ st with pq := rest } : LoopState).mesh.edgeToTriangles =
      st.mesh.edgeToTriangles ∧
    ({ st with pq := rest } : LoopState).mesh.samples = st.mesh.samples ∧
    ({ st with pq := rest } : LoopState).triDict = st.triDict ∧
    ({ st with pq := rest } : LoopState).trace = st.trace :=
  ⟨loopIter_stale env maxV thr minE st tri rest hpop hstale,
   rfl, rfl, rfl, rfl, rfl, rfl, rfl⟩

/-- Witness for C9 at a concrete state: a queue holding the single stale
triangle id 3 over an empty live map. -/
theorem c9_witness :
    loopIter envZero 5 1 0
      { mesh := emptyMesh,
        pq := [{ v0 := 0, v1 := 1, v2 := 2, error := 7, id := 3 }],
        triDict := [], trace := [] } =
      Sum.inr
        { mesh := emptyMesh, pq := [], triDict := [], trace := [] } :=
  (c9_stale_pop_frame envZero 5 1 0
    { mesh := emptyMesh,
      pq := [{ v0 := 0, v1 := 1, v2 := 2, error := 7, id := 3 }],
      triDict := [], trace := [] }
    { v0 := 0, v1 := 1, v2 := 2, error := 7, id := 3 } []
    (by with_unfolding_all decide) (by decide)).1

/-- Claim C6: when the popped entry is live and its error is strictly below
the threshold, the whole loop stops at once — `loopRun` returns immediately
(`true` marks genuine termination) with only the pop and its trace record
applied — and the final mesh handed to `finalizeState` is exactly the
current contents of the live-triangle map. -/
theorem c6_threshold_stops (env : Env) (maxV : ℕ) (thr minE : ℚ)
    (fuel : ℕ) (st : LoopState) (tri tr : Triangle) (rest : List Triangle)
    (hg1 : st.pq ≠ []) (hg2 : st.mesh.vertices.length < maxV)
    (hpop : heappop st.pq = some (tri, rest))
    (hlive : tlookup tri.id st.triDict = some tr)
    (hthr : tri.error < thr) :
    loopRun env maxV thr minE (fuel + 1) st =
      ({ st with
        pq := rest,
        trace := st.trace ++ [(tri.error, rest.map Triangle.error)] },
       true) ∧
    (finalizeState
      { st with
        pq := rest,
        trace := st.trace ++ [(tri.error, rest.map Triangle.error)]
      }).mesh.triangles = st.triDict.map Prod.snd := by
  constructor
  · rw [loopRun, if_pos ⟨hg1, hg2⟩,
      loopIter_threshold env maxV thr minE st tri tr rest hpop hlive hthr]
  · rfl

/-- Witness for C6 at a concrete state: one live zero-error triangle in the
queue with threshold 1. -/
theorem c6_witness :
    loopRun envZero 1 1 0 1
      { mesh := emptyMesh,
        pq := [{ v0 := 0, v1 := 1, v2 := 2, error := 0, id := 0 }],
        triDict := [(0, { v0 := 0, v1 := 1, v2 := 2, error := 0, id := 0 })],
        trace := [] } =
      ({ mesh := emptyMesh, pq := [],
         triDict :=
           [(0, { v0 := 0, v1 := 1, v2 := 2, error := 0, id := 0 })],
         trace := [((0 : ℚ), ([] : List ℚ))] }, true) :=
  (c6_threshold_stops envZero 1 1 0 0
    { mesh := emptyMesh,
      pq := [{ v0 := 0, v1 := 1, v2 := 2, error := 0, id := 0 }],
      triDict := [(0, { v0 := 0, v1 := 1, v2 := 2, error := 0, id := 0 })],
      trace := [] }
    { v0 := 0, v1 := 1, v2 := 2, error := 0, id := 0 }
    { v0 := 0, v1 := 1, v2 := 2, error := 0, id := 0 } []
    (by with_unfolding_all decide) (by decide)
    (by with_unfolding_all decide) (by decide)
    (by with_unfolding_all decide)).1

/-! ### Vertex growth of one loop iteration; the amended vertex budget -/

theorem get_midpoint_extend (env : Env) (ms : MeshState) (a b : ℕ) :
    ∃ l, (get_midpoint env ms a b).2.vertices = ms.vertices ++ l ∧
      l.length ≤ 1 := by
  cases h : dlookup (edgeKey a b) ms.edges with
  | some m =>
      rw [get_midpoint_hit env ms a b m h]
      exact ⟨[], by simp, by simp⟩
  | none =>
      obtain ⟨v, s, hr⟩ := get_midpoint_miss env ms a b h
      rw [hr]
      exact ⟨[v], rfl, by simp⟩

theorem subdivide_vertices_extend (env : Env) (ms : MeshState)
    (tri : Triangle) :
    ∃ l, (subdivide_triangle_conforming env ms tri).2.2.vertices =
        ms.vertices ++ l ∧ l.length ≤ 3 := by
  obtain ⟨l1, h1, hl1⟩ := get_midpoint_extend env ms tri.v0 tri.v1
  obtain ⟨l2, h2, hl2⟩ := get_midpoint_extend env
    (get_midpoint env ms tri.v0 tri.v1).2 tri.v1 tri.v2
  obtain ⟨l3, h3, hl3⟩ := get_midpoint_extend env
    (get_midpoint env (get_midpoint env ms tri.v0 tri.v1).2 tri.v1
      tri.v2).2 tri.v2 tri.v0
  by_cases h01 : (dlookup (edgeKey tri.v0 tri.v1) ms.edges).isSome = true <;>
    by_cases h12 :
        (dlookup (edgeKey tri.v1 tri.v2) ms.edges).isSome = true <;>
      by_cases h20 :
          (dlookup (edgeKey tri.v2 tri.v0) ms.edges).isSome = true <;>
        first
          | (refine ⟨[], ?_, by simp⟩
             simp [subdivide_triangle_conforming, h01, h12, h20]
             done)
          | (refine ⟨l1 ++ (l2 ++ l3), ?_, ?_⟩
             · simp [subdivide_triangle_conforming, h01, h12, h20, h1, h2,
                 h3, List.append_assoc]
             · simp only [List.length_append]
               omega)

theorem addChildren_vertices (env : Env) (l : List Triangle)
    (st : LoopState) :
    (addChildren env l st).mesh.vertices = st.mesh.vertices := by
  induction l generalizing st with
  | nil => rfl
  | cons nt more ih => simp [addChildren, ih]

theorem pushInitial_mesh (env : Env) (l : List Triangle) (st : LoopState) :
    (pushInitial env l st).mesh = st.mesh := by
  induction l generalizing st with
  | nil => rfl
  | cons nt more ih => simp [pushInitial, ih]

theorem init_icosahedron_vertices_length (env : Env) :
    (init_icosahedron env).vertices.length = 12 := rfl

theorem loopIter_vertex_growth (env : Env) (maxV : ℕ) (thr minE : ℚ)
    (st : LoopState) :
    (outState (loopIter env maxV thr minE st)).mesh.vertices.length ≤
      st.mesh.vertices.length + 3 := by
  cases hpop : heappop st.pq with
  | none => simp [loopIter, hpop, outState]
  | some pr =>
      obtain ⟨tri, rest⟩ := pr
      cases hlv : tlookup tri.id st.triDict with
      | none =>
          rw [loopIter_stale env maxV thr minE st tri rest hpop hlv]
          simp [outState]
      | some tr =>
          by_cases hthr : tri.error < thr
          · rw [loopIter_threshold env maxV thr minE st tri tr rest hpop hlv
              hthr]
            simp [outState]
          · by_cases hedge : max_edge_length env st.mesh tri < minE
            · rw [loopIter_nyquist env maxV thr minE st tri tr rest hpop hlv
                hthr hedge]
              simp [outState]
            · obtain ⟨l, hl, hlen⟩ :=
                subdivide_vertices_extend env st.mesh tri
              by_cases hbud : maxV <
                (subdivide_triangle_conforming env st.mesh
                  tri).2.2.vertices.length +
                  (subdivide_triangle_conforming env st.mesh tri).2.1
              · rw [loopIter_budget env maxV thr minE st tri tr rest hpop hlv
                  hthr hedge hbud]
                simp [outState, hl]
                omega
              · rw [loopIter_commit env maxV thr minE st tri tr rest hpop
                  hlv hthr hedge hbud]
                simp [outState, addChildren_vertices, hl]
                omega

theorem loopRun_vertex_bound (env : Env) (maxV : ℕ) (thr minE : ℚ) :
    ∀ (fuel : ℕ) (st : LoopState),
      st.mesh.vertices.length ≤ max 12 (maxV + 2) →
      ((loopRun env maxV thr minE fuel st).1).mesh.vertices.length ≤
        max 12 (maxV + 2) := by
  intro fuel
  induction fuel with
  | zero => intro st h; exact h
  | succ fuel ih =>
      intro st h
      rw [loopRun]
      by_cases hg : st.pq ≠ [] ∧ st.mesh.vertices.length < maxV
      · rw [if_pos hg]
        have hgrow := loopIter_vertex_growth env maxV thr minE st
        have hm : maxV + 2 ≤ max 12 (maxV + 2) := le_max_right _ _
        cases hit : loopIter env maxV thr minE st with
        | inl stop =>
            rw [hit] at hgrow
            simp only [outState, Sum.elim_inl, id] at hgrow
            have hg2 := hg.2
            simp only []
            omega
        | inr next =>
            rw [hit] at hgrow
            simp only [outState, Sum.elim_inr, id] at hgrow
            have hg2 := hg.2
            exact ih next (by omega)
      · rw [if_neg hg]
        exact h

/-- Amended claim C1: `generate` does not guarantee `|vertices| ≤
max_vertices` (see `c1_counterexample`: the icosahedron's 12 vertices are
created unconditionally, and a subdivision appends its midpoints before the
budget check runs); the bound that does hold on every run, for arbitrary
parameters, is `|vertices| ≤ max 12 (max_vertices + 2)`: the loop is
entered only while `|vertices| < max_vertices` and one iteration creates at
most 3 vertices. -/
theorem c1_amended_budget (env : Env) (maxV : ℕ) (thr minE : ℚ)
    (fuel : ℕ) (_hpos : 0 < maxV) (_hthr : 0 < thr) (_hminE : 0 ≤ minE) :
    (generate env maxV thr minE fuel).1.mesh.vertices.length ≤
      max 12 (maxV + 2) := by
  have h0 :
      (buildInitialQueue env (init_icosahedron env)).mesh.vertices.length
        = 12 := by
    rw [buildInitialQueue, pushInitial_mesh,
      init_icosahedron_vertices_length]
  have hb := loopRun_vertex_bound env maxV thr minE fuel
    (buildInitialQueue env (init_icosahedron env))
    (by rw [h0]; exact le_max_left _ _)
  exact hb

/-- Counterexample to claim C1 as stated: with the zero field,
`max_vertices = 1` (positive), `error_threshold = 1` (positive) and
`min_edge_length = 0`, `generate` terminates normally with the 12
icosahedron vertices, exceeding `max_vertices`. -/
theorem c1_counterexample :
    0 < 1 ∧ (0 : ℚ) < 1 ∧ (0 : ℚ) ≤ 0 ∧
    (generate envZero 1 1 0 1).2 = true ∧
    ¬((generate envZero 1 1 0 1).1.mesh.vertices.length ≤ 1) := by
  refine ⟨by decide, by norm_num, le_refl 0, ?_, ?_⟩ <;>
    with_unfolding_all decide

/-- Witness for the amended claim C1 at the concrete parameters of the
counterexample run. -/
theorem c1_witness :
    0 < 1 ∧
    (generate envZero 1 1 0 1).1.mesh.vertices.length ≤ max 12 (1 + 2) :=
  ⟨by decide,
   c1_amended_budget envZero 1 1 0 1 (by decide) (by norm_num)
     (le_refl 0)⟩

/-! ### Freshness of the subdivider's outputs; the budget break (C10) -/

theorem get_midpoint_counter (env : Env) (ms : MeshState) (a b : ℕ) :
    (get_midpoint env ms a b).2.triangleIdCounter = ms.triangleIdCounter := by
  cases h : dlookup (edgeKey a b) ms.edges with
  | some m => rw [get_midpoint_hit env ms a b m h]
  | none =>
      obtain ⟨v, s, hr⟩ := get_midpoint_miss env ms a b h
      rw [hr]

theorem get_midpoint_edges_extend (env : Env) (ms : MeshState) (a b : ℕ) :
    ∃ l, (get_midpoint env ms a b).2.edges = l ++ ms.edges := by
  cases h : dlookup (edgeKey a b) ms.edges with
  | some m =>
      rw [get_midpoint_hit env ms a b m h]
      exact ⟨[], rfl⟩
  | none =>
      obtain ⟨v, s, hr⟩ := get_midpoint_miss env ms a b h
      rw [hr]
      exact ⟨[(edgeKey a b, ms.vertices.length)], rfl⟩

theorem subdivide_edges_extend (env : Env) (ms : MeshState)
    (tri : Triangle) :
    ∃ l, (subdivide_triangle_conforming env ms tri).2.2.edges =
      l ++ ms.edges := by
  obtain ⟨l1, h1⟩ := get_midpoint_edges_extend env ms tri.v0 tri.v1
  obtain ⟨l2, h2⟩ := get_midpoint_edges_extend env
    (get_midpoint env ms tri.v0 tri.v1).2 tri.v1 tri.v2
  obtain ⟨l3, h3⟩ := get_midpoint_edges_extend env
    (get_midpoint env (get_midpoint env ms tri.v0 tri.v1).2 tri.v1
      tri.v2).2 tri.v2 tri.v0
  by_cases h01 : (dlookup (edgeKey tri.v0 tri.v1) ms.edges).isSome = true <;>
    by_cases h12 :
        (dlookup (edgeKey tri.v1 tri.v2) ms.edges).isSome = true <;>
      by_cases h20 :
          (dlookup (edgeKey tri.v2 tri.v0) ms.edges).isSome = true <;>
        first
          | (refine ⟨[], ?_⟩
             simp [subdivide_triangle_conforming, h01, h12, h20]
             done)
          | (refine ⟨l3 ++ (l2 ++ l1), ?_⟩
             simp [subdivide_triangle_conforming, h01, h12, h20, h1, h2,
               h3, List.append_assoc])

theorem subdivide_counter (env : Env) (ms : MeshState) (tri : Triangle) :
    (subdivide_triangle_conforming env ms tri).2.2.triangleIdCounter =
      ms.triangleIdCounter := by
  by_cases h01 : (dlookup (edgeKey tri.v0 tri.v1) ms.edges).isSome = true <;>
    by_cases h12 :
        (dlookup (edgeKey tri.v1 tri.v2) ms.edges).isSome = true <;>
      by_cases h20 :
          (dlookup (edgeKey tri.v2 tri.v0) ms.edges).isSome = true <;>
        simp [subdivide_triangle_conforming, h01, h12, h20,
          get_midpoint_counter]

theorem subdivide_ids (env : Env) (ms : MeshState) (tri : Triangle) :
    ∀ t' ∈ (subdivide_triangle_conforming env ms tri).1,
      ms.triangleIdCounter ≤ t'.id ∧
        t'.id <
          ms.triangleIdCounter +
            (subdivide_triangle_conforming env ms tri).2.1 := by
  by_cases h01 : (dlookup (edgeKey tri.v0 tri.v1) ms.edges).isSome = true <;>
    by_cases h12 :
        (dlookup (edgeKey tri.v1 tri.v2) ms.edges).isSome = true <;>
      by_cases h20 :
          (dlookup (edgeKey tri.v2 tri.v0) ms.edges).isSome = true <;>
        (intro t' ht'
         simp only [subdivide_triangle_conforming, h01, h12, h20] at ht' ⊢
         simp at ht'
         rcases ht' with rfl | rfl | rfl | rfl <;> simp)

theorem tlookup_none_of_keys_ne {β : Type} (k : ℕ) (d : List (ℕ × β))
    (h : ∀ p ∈ d, p.1 ≠ k) : tlookup k d = none := by
  induction d with
  | nil => rfl
  | cons p rest ih =>
      obtain ⟨k0, v⟩ := p
      rw [tlookup, if_neg (h (k0, v) (List.mem_cons_self _ _))]
      exact ih fun q hq => h q (List.mem_cons_of_mem _ hq)

/-- Claim C10: when `generate` exits through the vertex-budget check, the
loop returns at once with the post-subdivision mesh retained: the midpoint
vertices created by the final `subdivide_triangle_conforming` call stay
appended to the vertex list and recorded in the edge-midpoint cache, the
popped parent stays in the live-triangle map, and the freshly built child
triangles are discarded — absent from the live map and from the remaining
queue — so the returned mesh can contain vertices referenced by no triangle
and a live triangle all of whose edges carry cached midpoints. -/
theorem c10_budget_break (env : Env) (maxV : ℕ) (thr minE : ℚ) (fuel : ℕ)
    (st : LoopState) (tri tr : Triangle) (rest : List Triangle)
    (hg1 : st.pq ≠ []) (hg2 : st.mesh.vertices.length < maxV)
    (hpop : heappop st.pq = some (tri, rest))
    (hlive : tlookup tri.id st.triDict = some tr)
    (hthr : ¬tri.error < thr)
    (hedge : ¬max_edge_length env st.mesh tri < minE)
    (hbud : maxV <
      (subdivide_triangle_conforming env st.mesh tri).2.2.vertices.length +
        (subdivide_triangle_conforming env st.mesh tri).2.1)
    (hkeys : ∀ p ∈ st.triDict, p.1 < st.mesh.triangleIdCounter)
    (hpq : ∀ x ∈ st.pq, x.id < st.mesh.triangleIdCounter) :
    loopRun env maxV thr minE (fuel + 1) st =
      ({ st with
         mesh := (subdivide_triangle_conforming env st.mesh tri).2.2,
         pq := rest,
         trace := st.trace ++ [(tri.error, rest.map Triangle.error)] },
       true) ∧
    tlookup tri.id
      ((loopRun env maxV thr minE (fuel + 1) st).1).triDict = some tr ∧
    (∀ c ∈ (subdivide_triangle_conforming env st.mesh tri).1,
      tlookup c.id
        ((loopRun env maxV thr minE (fuel + 1) st).1).triDict = none) ∧
    (∀ c ∈ (subdivide_triangle_conforming env st.mesh tri).1,
      ∀ x ∈ ((loopRun env maxV thr minE (fuel + 1) st).1).pq,
        x.id ≠ c.id) ∧
    (∃ nv, (subdivide_triangle_conforming env st.mesh tri).2.2.vertices =
      st.mesh.vertices ++ nv) ∧
    (∃ ne, (subdivide_triangle_conforming env st.mesh tri).2.2.edges =
      ne ++ st.mesh.edges) := by
  have hrun : loopRun env maxV thr minE (fuel + 1) st =
      ({ st with
         mesh := (subdivide_triangle_conforming env st.mesh tri).2.2,
         pq := rest,
         trace := st.trace ++ [(tri.error, rest.map Triangle.error)] },
       true) := by
    rw [loopRun, if_pos ⟨hg1, hg2⟩,
      loopIter_budget env maxV thr minE st tri tr rest hpop hlive hthr hedge
        hbud]
  obtain ⟨nv, hnv, -⟩ := subdivide_vertices_extend env st.mesh tri
  refine ⟨hrun, ?_, ?_, ?_, ⟨nv, hnv⟩,
    subdivide_edges_extend env st.mesh tri⟩
  · rw [hrun]
    exact hlive
  · intro c hc
    rw [hrun]
    refine tlookup_none_of_keys_ne c.id st.triDict fun p hp => ?_
    have hcid := (subdivide_ids env st.mesh tri c hc).1
    have hk := hkeys p hp
    omega
  · intro c hc x hx
    rw [hrun] at hx
    have hcid := (subdivide_ids env st.mesh tri c hc).1
    have hxid := hpq x (heappop_mem hpop hx)
    omega

/-- Witness for C10 at a concrete run: `generate envZero 13 0 0 5` exits
through the budget check in its first iteration; the subdivision of face 0
appended 3 midpoint vertices (12 → 15), vertex 12 is referenced by no
triangle of the returned mesh, and all three of face 0's edges carry cached
midpoints. -/
theorem c10_witness :
    (∃ nv, (subdivide_triangle_conforming envZero icoStateZero.mesh
        icoTriZero).2.2.vertices = icoStateZero.mesh.vertices ++ nv) ∧
    (generate envZero 13 0 0 5).1.mesh.vertices.length = 15 ∧
    (∀ t ∈ (generate envZero 13 0 0 5).1.mesh.triangles,
        t.v0 ≠ 12 ∧ t.v1 ≠ 12 ∧ t.v2 ≠ 12) ∧
    (∀ e ∈ icoTriZero.edges,
        (dlookup e (generate envZero 13 0 0 5).1.mesh.edges).isSome) := by
  refine ⟨?_, ?_⟩
  · exact (c10_budget_break envZero 13 0 0 4 icoStateZero icoTriZero
      icoTriZero icoStateZero.pq.tail
      (by with_unfolding_all decide) (by with_unfolding_all decide)
      (by with_unfolding_all decide) (by with_unfolding_all decide)
      (by with_unfolding_all decide) (by with_unfolding_all decide)
      (by with_unfolding_all decide) (by with_unfolding_all decide)
      (by with_unfolding_all decide)).2.2.2.2.1
  · with_unfolding_all decide

/-! ### Persistence of a live triangle that is no longer queued (C7) -/

theorem tlookup_tinsert_ne {β : Type} (k k' : ℕ) (v : β)
    (d : List (ℕ × β)) (h : k ≠ k') :
    tlookup k' (tinsert k v d) = tlookup k' d := by
  induction d with
  | nil => simp [tinsert, tlookup, h]
  | cons p rest ih =>
      obtain ⟨k0, v0⟩ := p
      by_cases hk : k0 = k
      · subst hk
        simp [tinsert, tlookup, h]
      · simp [tinsert, tlookup, hk, ih]

theorem tlookup_terase_ne {β : Type} (k k' : ℕ) (d : List (ℕ × β))
    (h : k ≠ k') :
    tlookup k' (terase k d) = tlookup k' d := by
  induction d with
  | nil => rfl
  | cons p rest ih =>
      obtain ⟨k0, v0⟩ := p
      by_cases hk : k0 = k
      · subst hk
        simp [terase, tlookup, h, ih]
      · simp [terase, tlookup, hk, ih]

theorem addChildren_counter (env : Env) (l : List Triangle)
    (st : LoopState) :
    (addChildren env l st).mesh.triangleIdCounter =
      st.mesh.triangleIdCounter := by
  induction l generalizing st with
  | nil => rfl
  | cons nt more ih => simp [addChildren, ih]

theorem addChildren_pq_mem (env : Env) (l : List Triangle) (st : LoopState)
    (x : Triangle) (hx : x ∈ (addChildren env l st).pq) :
    x ∈ st.pq ∨ ∃ nt ∈ l, x.id = nt.id := by
  induction l generalizing st with
  | nil => exact Or.inl hx
  | cons nt more ih =>
      rcases ih _ hx with hx' | ⟨nt', hnt', hid⟩
      · rw [heappush] at hx'
        rcases List.mem_append.mp hx' with hx'' | hx''
        · exact Or.inl hx''
        · simp at hx''
          subst hx''
          exact Or.inr ⟨nt, List.mem_cons_self _ _, rfl⟩
      · exact Or.inr ⟨nt', List.mem_cons_of_mem _ hnt', hid⟩

theorem addChildren_tlookup_ne (env : Env) (l : List Triangle)
    (st : LoopState) (k : ℕ) (h : ∀ nt ∈ l, nt.id ≠ k) :
    tlookup k (addChildren env l st).triDict = tlookup k st.triDict := by
  induction l generalizing st with
  | nil => rfl
  | cons nt more ih =>
      rw [addChildren]
      rw [ih _ fun nt' hnt' => h nt' (List.mem_cons_of_mem _ hnt')]
      exact tlookup_tinsert_ne _ _ _ _ (h nt (List.mem_cons_self _ _))

theorem tlookup_some_mem {β : Type} {k : ℕ} {v : β} {d : List (ℕ × β)}
    (h : tlookup k d = some v) : v ∈ d.map Prod.snd := by
  induction d with
  | nil => simp [tlookup] at h
  | cons p rest ih =>
      obtain ⟨k0, v0⟩ := p
      rw [tlookup] at h
      by_cases hk : k0 = k
      · rw [if_pos hk] at h
        injection h with h
        subst h
        exact List.mem_cons_self _ _
      · rw [if_neg hk] at h
        exact List.mem_cons_of_mem _ (ih h)

theorem loopIter_nopop (env : Env) (maxV : ℕ) (thr minE : ℚ)
    (st : LoopState) (hpop : heappop st.pq = none) :
    loopIter env maxV thr minE st = Sum.inl st := by
  simp [loopIter, hpop]

theorem triDict_persist (env : Env) (maxV : ℕ) (thr minE : ℚ) (id0 : ℕ)
    (tr0 : Triangle) :
    ∀ (fuel : ℕ) (st : LoopState),
      (∀ x ∈ st.pq, x.id < st.mesh.triangleIdCounter) →
      id0 < st.mesh.triangleIdCounter →
      (∀ x ∈ st.pq, x.id ≠ id0) →
      tlookup id0 st.triDict = some tr0 →
      tlookup id0 ((loopRun env maxV thr minE fuel st).1).triDict =
        some tr0 := by
  intro fuel
  induction fuel with
  | zero => intro st _ _ _ h4; exact h4
  | succ fuel ih =>
      intro st h1 h2 h3 h4
      rw [loopRun]
      by_cases hg : st.pq ≠ [] ∧ st.mesh.vertices.length < maxV
      · rw [if_pos hg]
        cases hpop : heappop st.pq with
        | none =>
            rw [loopIter_nopop env maxV thr minE st hpop]
            exact h4
        | some pr =>
            obtain ⟨tri, rest⟩ := pr
            have htri_mem : tri ∈ st.pq :=
              (heappop_perm hpop).mem_iff.mpr (List.mem_cons_self _ _)
            have hrest_bound : ∀ x ∈ rest, x.id < st.mesh.triangleIdCounter :=
              fun x hx => h1 x (heappop_mem hpop hx)
            have hrest_ne : ∀ x ∈ rest, x.id ≠ id0 :=
              fun x hx => h3 x (heappop_mem hpop hx)
            cases hlv : tlookup tri.id st.triDict with
            | none =>
                rw [loopIter_stale env maxV thr minE st tri rest hpop hlv]
                exact ih _ hrest_bound h2 hrest_ne h4
            | some tr =>
                by_cases hthr : tri.error < thr
                · rw [loopIter_threshold env maxV thr minE st tri tr rest
                    hpop hlv hthr]
                  exact h4
                · by_cases hedge : max_edge_length env st.mesh tri < minE
                  · rw [loopIter_nyquist env maxV thr minE st tri tr rest
                      hpop hlv hthr hedge]
                    exact ih _ hrest_bound h2 hrest_ne h4
                  · by_cases hbud : maxV <
                      (subdivide_triangle_conforming env st.mesh
                        tri).2.2.vertices.length +
                        (subdivide_triangle_conforming env st.mesh tri).2.1
                    · rw [loopIter_budget env maxV thr minE st tri tr rest
                        hpop hlv hthr hedge hbud]
                      exact h4
                    · rw [loopIter_commit env maxV thr minE st tri tr rest
                        hpop hlv hthr hedge hbud]
                      have hids := subdivide_ids env st.mesh tri
                      have hcnt := subdivide_counter env st.mesh tri
                      have htri_ne : tri.id ≠ id0 := h3 tri htri_mem
                      refine ih _ ?_ ?_ ?_ ?_
                      · intro x hx
                        rcases addChildren_pq_mem env _ _ x hx with hx' |
                          ⟨nt, hnt, hid⟩
                        · have := hrest_bound x hx'
                          rw [addChildren_counter]
                          simp only [hcnt]
                          omega
                        · have := (hids nt hnt).2
                          rw [addChildren_counter]
                          simp only [hcnt]
                          omega
                      · rw [addChildren_counter]
                        simp only [hcnt]
                        omega
                      · intro x hx
                        rcases addChildren_pq_mem env _ _ x hx with hx' |
                          ⟨nt, hnt, hid⟩
                        · exact hrest_ne x hx'
                        · have := (hids nt hnt).1
                          omega
                      · rw [addChildren_tlookup_ne env _ _ id0
                          (fun nt hnt => by have := (hids nt hnt).1; omega)]
                        exact Eq.trans
                          (tlookup_terase_ne tri.id id0 st.triDict htri_ne)
                          h4
      · rw [if_neg hg]
        exact h4

/-- Claim C7: when a popped live triangle's maximal edge angular length —
`max_edge_length`, i.e. `arccos (clip (dot a b) (-1) 1)` over its three
edges — is strictly below `min_edge_length` (its error being at or above
the threshold, or the loop would already have stopped), the entry is
discarded without being re-entered into the queue and without any mutation:
the loop continues with only the pop (and its ghost-trace record) applied,
the triangle's id can never re-enter the queue (ids in the queue are unique
and future pushes are fresh), and the triangle remains in the live-triangle
map at every later point of the run — hence in the final mesh — even
though its error is at or above the threshold. -/
theorem c7_nyquist_discard (env : Env) (maxV : ℕ) (thr minE : ℚ)
    (st : LoopState) (tri tr : Triangle) (rest : List Triangle)
    (hpop : heappop st.pq = some (tri, rest))
    (hlive : tlookup tri.id st.triDict = some tr)
    (hthr : ¬tri.error < thr)
    (hedge : max_edge_length env st.mesh tri < minE)
    (hpq : ∀ x ∈ st.pq, x.id < st.mesh.triangleIdCounter)
    (hnodup : (st.pq.map Triangle.id).Nodup) :
    loopIter env maxV thr minE st =
      Sum.inr { st with
        pq := rest,
        trace := st.trace ++ [(tri.error, rest.map Triangle.error)] } ∧
    (∀ x ∈ rest, x.id ≠ tri.id) ∧
    (({ st with
        pq := rest,
        trace := st.trace ++ [(tri.error, rest.map Triangle.error)]
      } : LoopState).mesh = st.mesh ∧
     ({ st with
        pq := rest,
        trace := st.trace ++ [(tri.error, rest.map Triangle.error)]
      } : LoopState).triDict = st.triDict) ∧
    tlookup tri.id
      ({ st with
        pq := rest,
        trace := st.trace ++ [(tri.error, rest.map Triangle.error)]
      } : LoopState).triDict = some tr ∧
    (∀ fuel, tlookup tri.id
      ((loopRun env maxV thr minE fuel
        { st with
          pq := rest,
          trace := st.trace ++ [(tri.error, rest.map Triangle.error)]
        }).1).triDict = some tr) ∧
    (∀ fuel, tr ∈
      (finalizeState (loopRun env maxV thr minE fuel
        { st with
          pq := rest,
          trace := st.trace ++ [(tri.error, rest.map Triangle.error)]
        }).1).mesh.triangles) := by
  have htri_mem : tri ∈ st.pq :=
    (heappop_perm hpop).mem_iff.mpr (List.mem_cons_self _ _)
  have hnodup' : (tri.id :: rest.map Triangle.id).Nodup := by
    have hperm := (heappop_perm hpop).map Triangle.id
    exact (List.Perm.nodup_iff hperm).mp hnodup
  have hnotin : tri.id ∉ rest.map Triangle.id :=
    (List.nodup_cons.mp hnodup').1
  have hrestne : ∀ x ∈ rest, x.id ≠ tri.id := by
    intro x hx heq
    apply hnotin
    rw [← heq]
    exact List.mem_map_of_mem _ hx
  have hpersist : ∀ fuel, tlookup tri.id
      ((loopRun env maxV thr minE fuel
        { st with
          pq := rest,
          trace := st.trace ++ [(tri.error, rest.map Triangle.error)]
        }).1).triDict = some tr := by
    intro fuel
    refine triDict_persist env maxV thr minE tri.id tr fuel _ ?_ ?_ ?_ hlive
    · intro x hx
      exact hpq x (heappop_mem hpop hx)
    · exact hpq tri htri_mem
    · intro x hx
      exact hrestne x hx
  refine ⟨loopIter_nyquist env maxV thr minE st tri tr rest hpop hlive hthr
      hedge,
    hrestne, ⟨rfl, rfl⟩, hlive, hpersist, ?_⟩
  intro fuel
  exact tlookup_some_mem (hpersist fuel)

/-- Witness for C7 at a concrete state: a single live triangle with error 5
(threshold 1) whose maximal edge length (`arccos` constantly 1) is below
`min_edge_length = 2`; it is still live after running the loop for 3 more
steps. -/
theorem c7_witness :
    max_edge_length envZero { emptyMesh with triangleIdCounter := 1 }
        { v0 := 0, v1 := 1, v2 := 2, error := 5, id := 0 } < 2 ∧
    tlookup 0 ((loopRun envZero 5 1 2 3
      { mesh := { emptyMesh with triangleIdCounter := 1 },
        pq := [],
        triDict :=
          [(0, { v0 := 0, v1 := 1, v2 := 2, error := 5, id := 0 })],
        trace := [((5 : ℚ), ([] : List ℚ))] }).1).triDict =
      some { v0 := 0, v1 := 1, v2 := 2, error := 5, id := 0 } :=
  ⟨by with_unfolding_all decide,
   (c7_nyquist_discard envZero 5 1 2
      { mesh := { emptyMesh with triangleIdCounter := 1 },
        pq := [{ v0 := 0, v1 := 1, v2 := 2, error := 5, id := 0 }],
        triDict :=
          [(0, { v0 := 0, v1 := 1, v2 := 2, error := 5, id := 0 })],
        trace := [] }
      { v0 := 0, v1 := 1, v2 := 2, error := 5, id := 0 }
      { v0 := 0, v1 := 1, v2 := 2, error := 5, id := 0 } []
      (by with_unfolding_all decide) (by with_unfolding_all decide)
      (by with_unfolding_all decide) (by with_unfolding_all decide)
      (by with_unfolding_all decide)
      (by with_unfolding_all decide)).2.2.2.2.1 3⟩

/-! ### The error estimator computes exactly the claimed IDW formula (C8) -/

theorem code_point_error_nonneg (env : Env) (v0 v1 v2 : Vec3)
    (e0 e1 e2 : ℚ) (point : Vec3) :
    0 ≤ code_point_error env v0 v1 v2 e0 e1 e2 point :=
  abs_nonneg _

theorem code_point_error_eq_claimed (env : Env) (v0 v1 v2 : Vec3)
    (e0 e1 e2 : ℚ) (point : Vec3)
    (h : 0 < tp_total_dist env v0 v1 v2 point) :
    code_point_error env v0 v1 v2 e0 e1 e2 point =
      claimed_point_error env v0 v1 v2 e0 e1 e2 point := by
  unfold code_point_error claimed_point_error
  dsimp only
  split
  · rfl
  · next hneg => exact absurd h hneg

/-- Claim C8: `compute_triangle_error` returns the maximum, over exactly
four test points — the centroid and the three edge midpoints, each
projected to the unit sphere — of the absolute difference between the field
sampled there and the value interpolated from the three corner elevations
with inverse-distance weights `1/(distance + 1e-10)` normalised to sum
to 1 (`claimed_triangle_error`), provided each projected test point has
positive total distance to the corners (`total_dist > 0`, the code's guard
against the fully degenerate triangle, where it falls back to `e0`); being
a pure function of the vertex and elevation lists only, it creates no
vertex and neither reads nor writes the edge-midpoint cache, the triangle
store or the id counter. -/
theorem c8_error_estimator (env : Env) (ms : MeshState) (tri : Triangle)
    (h : ∀ p ∈ tri_test_points (ms.vertices.getD tri.v0 ⟨0, 0, 0⟩)
        (ms.vertices.getD tri.v1 ⟨0, 0, 0⟩)
        (ms.vertices.getD tri.v2 ⟨0, 0, 0⟩),
      0 < tp_total_dist env (ms.vertices.getD tri.v0 ⟨0, 0, 0⟩)
        (ms.vertices.getD tri.v1 ⟨0, 0, 0⟩)
        (ms.vertices.getD tri.v2 ⟨0, 0, 0⟩) p) :
    compute_triangle_error env ms tri =
      claimed_triangle_error env ms tri ∧
    (∀ E ET T n,
      compute_triangle_error env
        { ms with
          edges := E,
          edgeToTriangles := ET,
          triangles := T,
          triangleIdCounter := n } tri =
        compute_triangle_error env ms tri) := by
  refine ⟨?_, fun E ET T n => rfl⟩
  unfold compute_triangle_error claimed_triangle_error tri_test_points
  dsimp only [List.foldl]
  rw [max_eq_right (code_point_error_nonneg env _ _ _ _ _ _ _)]
  rw [code_point_error_eq_claimed env _ _ _ _ _ _ _
      (h _ (by unfold tri_test_points; simp)),
    code_point_error_eq_claimed env _ _ _ _ _ _ _
      (h _ (by unfold tri_test_points; simp)),
    code_point_error_eq_claimed env _ _ _ _ _ _ _
      (h _ (by unfold tri_test_points; simp)),
    code_point_error_eq_claimed env _ _ _ _ _ _ _
      (h _ (by unfold tri_test_points; simp))]

/-- Witness for C8 at a concrete state: the triangle over the three
standard basis vectors with zero elevations, under `envZero` (every
distance evaluates to 1, so every test point's total corner distance
is 3 > 0). -/
theorem c8_witness :
    (∀ p ∈ tri_test_points
        (({ emptyMesh with
            vertices := [⟨1, 0, 0⟩, ⟨0, 1, 0⟩, ⟨0, 0, 1⟩],
            elevations := [0, 0, 0] } : MeshState).vertices.getD 0 ⟨0, 0, 0⟩)
        (({ emptyMesh with
            vertices := [⟨1, 0, 0⟩, ⟨0, 1, 0⟩, ⟨0, 0, 1⟩],
            elevations := [0, 0, 0] } : MeshState).vertices.getD 1 ⟨0, 0, 0⟩)
        (({ emptyMesh with
            vertices := [⟨1, 0, 0⟩, ⟨0, 1, 0⟩, ⟨0, 0, 1⟩],
            elevations := [0, 0, 0] } : MeshState).vertices.getD 2
          ⟨0, 0, 0⟩),
      0 < tp_total_dist envZero ⟨1, 0, 0⟩ ⟨0, 1, 0⟩ ⟨0, 0, 1⟩ p) ∧
    compute_triangle_error envZero
      { emptyMesh with
        vertices := [⟨1, 0, 0⟩, ⟨0, 1, 0⟩, ⟨0, 0, 1⟩],
        elevations := [0, 0, 0] }
      { v0 := 0, v1 := 1, v2 := 2, error := 0, id := 0 } =
      claimed_triangle_error envZero
        { emptyMesh with
          vertices := [⟨1, 0, 0⟩, ⟨0, 1, 0⟩, ⟨0, 0, 1⟩],
          elevations := [0, 0, 0] }
        { v0 := 0, v1 := 1, v2 := 2, error := 0, id := 0 } :=
  ⟨by with_unfolding_all decide,
   (c8_error_estimator envZero
      { emptyMesh with
        vertices := [⟨1, 0, 0⟩, ⟨0, 1, 0⟩, ⟨0, 0, 1⟩],
        elevations := [0, 0, 0] }
      { v0 := 0, v1 := 1, v2 := 2, error := 0, id := 0 }
      (by with_unfolding_all decide)).1⟩

end AdaptiveSphere
